import Mathlib

/-
  Verification development for the token-federation machinery of this SDK.

  The five FederationClient implementations embedded here:
  * WorkloadIdentityFederationClient
      (src/lib/common/lib/auth/workload-identity-federation-client.ts)
  * TokenExchangeWhileGen: the TokenExchangeFederationClient generation with a
      while-loop retry (src/unnamed/part_002)
  * TokenExchangeRecGen: the TokenExchangeFederationClient generation with
      bounded self-recursion retry (src/unnamed/part_003, first document)
  * TokenExchangeForGen: the TokenExchangeFederationClient generation with a
      for-loop retry (src/unnamed/part_003, second document)
  * X509FederationClient (src/lib/common/lib/auth/X509-federation-client.ts)

  The transport is embedded as a script: a list of events, one consumed per
  httpClient.send call.  Each refresh-cycle function returns its outcome
  together with the number of transport attempts consumed and the list of
  inter-attempt delays (in milliseconds) it performed.
-/

namespace OciAuth

/-- Modelled from the spec: security-token-adapter.ts is not under src/.
A SecurityToken wraps the raw bearer string and its decoded expiry; the spec
states that isValid() is true iff now < expiresAt - clockSkewBuffer.  The
keyVersion field records the session-key version current when the adapter was
constructed (the spec pairs a token with the SessionKeyMaterial active when it
was issued). -/
structure SecurityTokenAdapter where
  token : String
  expiresAt : Nat
  keyVersion : Nat
  deriving Repr, DecidableEq

/-- Modelled from the spec: isValid() is true iff now < expiresAt - clockSkewBuffer
(over Nat, now + skew < expiresAt). -/
def SecurityTokenAdapter.isValid (a : SecurityTokenAdapter) (now skew : Nat) : Bool :=
  now + skew < a.expiresAt

/-- The empty placeholder adapter each client constructs (token "", never valid),
created at key version kv. -/
def emptyAdapter (kv : Nat) : SecurityTokenAdapter :=
  ⟨"", 0, kv⟩

/-- The parse outcome of a response body: either it is not structured data, or it
parsed and may carry a string field named token and a string field named
access_token (none = absent or not a string). -/
inductive RespBody where
  | unparsable
  | json (token : Option String) (accessToken : Option String)
  deriving Repr, DecidableEq

structure HttpResponse where
  status : Nat
  body : RespBody
  deriving Repr, DecidableEq

/-- One transport interaction: either the send throws (transport-level error) or
it yields a response. -/
inductive TransportEvent where
  | err (msg : String)
  | resp (r : HttpResponse)
  deriving Repr, DecidableEq

/-- Take the next scripted transport event; an exhausted script behaves as a
transport failure (modelling artifact, unused by the theorems, which supply
enough events). -/
def sendEvent (events : List TransportEvent) : TransportEvent :=
  events.headD (TransportEvent.err ("no response"))

/-- A thrown error as observed by the caller: its message, the shouldBeRetried
flag if the code attached one, the numeric code if attached, and the message of
the error stored in the cause field if the code attached a cause. -/
structure ErrInfo where
  message : String
  shouldBeRetried : Option Bool
  code : Option Int
  cause : Option String
  deriving Repr, DecidableEq

/-- An error thrown as a plain Error with no extra fields attached. -/
def plainErr (m : String) : ErrInfo :=
  ⟨m, none, none, none⟩

/-- Outcome of a getSecurityTokenFromServer call. -/
inductive FetchResult where
  | ok (a : SecurityTokenAdapter)
  | fail (e : ErrInfo)
  deriving Repr, DecidableEq

/-- Trace of one getSecurityTokenFromServer call: outcome, transport attempts
consumed, and inter-attempt delays in milliseconds.  For X509FederationClient
the jittered delay durations are not modelled and each performed delay is
recorded as a 0 entry. -/
structure ServerOut where
  result : FetchResult
  attempts : Nat
  delays : List Nat
  deriving Repr, DecidableEq

/-- Outcome of a caller-facing call (getSecurityToken or
refreshAndGetSecurityToken): the returned token or thrown error, the client
state afterwards, and the transport attempts consumed. -/
structure CallOut (σ : Type) where
  result : Except ErrInfo String
  state : σ
  attempts : Nat

def TOKEN_EXCHANGE_GENERIC_ERROR : String :=
  "Failed to get a UPST token from OCI IAM Domain. See https://docs.oracle.com/en-us/iaas/Content/API/SDKDocs/clitoken.htm for more info."

def AUTH_TOKEN_GENERIC_ERROR : String :=
  "Failed to fetch the token from auth server"

def INSTANCE_PRINCIPAL_GENERIC_ERROR : String :=
  "Instance principals authentication can only be used on OCI compute instances. Please confirm this code is running on an OCI compute instance. See https://docs.oracle.com/en-us/iaas/Content/Identity/Tasks/callingservicesfrominstances.htm for more info."

/-- Stand-in for the message of the SyntaxError JSON.parse throws on an
unparsable body. -/
def JSON_PARSE_ERROR : String :=
  "Unexpected token in JSON"

/-- Modelled from the spec: AuthUtils.sanitizeCertificateString
(helpers/auth-utils.ts is not under src/); the spec says the request carries
the sanitized PEM of the session public key.  The sanitizer strips the PEM
armour lines and newlines; its exact behaviour is irrelevant to the theorems,
which only state that the code applies it. -/
def sanitizeCertificateString (s : String) : String :=
  (((s.replace ("-----BEGIN PUBLIC KEY-----") ("")).replace
      ("-----END PUBLIC KEY-----") ("")).replace
      ("\n") (""))

/-- The subject token configured on a client: either a string or a callback;
a callback is embedded by the outcome of invoking it (it resolves to a string
or rejects with an error message). -/
inductive SubjectToken where
  | str (s : String)
  | callback (outcome : Except String String)
  deriving Repr

/-- Construction-time configuration of the bearer-credential clients. -/
structure TokenExchangeConfig where
  tokenExchangeEndpoint : String
  clientCred : String
  keyPairPresent : Bool
  publicKey : Option String
  subjectToken : SubjectToken
  deriving Repr

/-- How the body of a built request is encoded. -/
inductive BodyEncoding where
  | formUrlEncoded
  | jsonString
  deriving Repr, DecidableEq

/-- A built exchange request: uri, method, the body as an encoding plus field
list, and the headers. -/
structure HttpRequestModel where
  uri : String
  method : String
  encoding : BodyEncoding
  bodyFields : List (String × String)
  headers : List (String × String)
  deriving Repr, DecidableEq

namespace WorkloadIdentityFederationClient

/-- The URLSearchParams payload and headers built by
WorkloadIdentityFederationClient.getTokenAsync
(workload-identity-federation-client.ts lines 205-223).  Note the
requested_token_type value written in the source: urn:oci-token-type:oci-upst. -/
def buildRequest (endpoint clientCred pub subjTok : String) : HttpRequestModel :=
  { uri := endpoint
    method := "POST"
    encoding := BodyEncoding.formUrlEncoded
    bodyFields :=
      [ (("grant_type"), ("urn:ietf:params:oauth:grant-type:token-exchange")),
        (("requested_token_type"), ("urn:oci-token-type:oci-upst")),
        (("public_key"), sanitizeCertificateString pub),
        (("subject_token"), subjTok),
        (("subject_token_type"), ("jwt")) ]
    headers :=
      [ (("Content-Type"), ("application/x-www-form-urlencoded")),
        (("Authorization"), ("Basic ") ++ clientCred) ] }

/-- Message wrapping done by the catch in getTokenAsync (line 231). -/
def wrapCall (m : String) : String :=
  ("Failed to call OCI IAM Domain, error: ") ++ m ++ (". ") ++ TOKEN_EXCHANGE_GENERIC_ERROR

/-- Resolution of the subject token inside getTokenAsync (lines 183-203). -/
def resolveSubject : SubjectToken → Except String String
  | SubjectToken.str s => Except.ok s
  | SubjectToken.callback (Except.ok s) => Except.ok s
  | SubjectToken.callback (Except.error m) =>
      Except.error (("Failed to get subject token from callback: ") ++ m)

/-- WorkloadIdentityFederationClient.getTokenAsync (lines 166-233): key-pair and
public-key checks (outside the try, so their messages are not wrapped), subject
resolution and the transport send (inside the try, so wrapped by the catch).
Returns the response or the thrown message, plus transport attempts consumed. -/
def getTokenAsync (cfg : TokenExchangeConfig) (events : List TransportEvent) :
    Except String HttpResponse × Nat :=
  if cfg.keyPairPresent = false then
    (Except.error ("keyPair for session was not provided"), 0)
  else if cfg.publicKey.getD ("") = "" then
    (Except.error ("Public key is not present"), 0)
  else
    match resolveSubject cfg.subjectToken with
    | Except.error m => (Except.error (wrapCall m), 0)
    | Except.ok s =>
      if s = "" then
        (Except.error (wrapCall ("Resolved subject token is empty or null")), 0)
      else
        match sendEvent events with
        | TransportEvent.err m => (Except.error (wrapCall m), 1)
        | TransportEvent.resp r => (Except.ok r, 1)

/-- The wrapping done by the catch in getSecurityTokenFromServer (lines
151-158): a new Error whose message prepends a prefix, with cause set to the
caught error and shouldBeRetried set to false. -/
def wrapFinal (m : String) : ErrInfo :=
  ⟨("Failed to get security token. ") ++ m, some false, none, some m⟩

/-- WorkloadIdentityFederationClient.getSecurityTokenFromServer (lines
117-159): one getTokenAsync call, non-200 fails, the 200 body must parse and
carry a non-empty string token field; every error is wrapped by wrapFinal.
decodeExp gives the expiry decoded from a token string; kv is the session-key
version current when the cycle runs. -/
def getSecurityTokenFromServer (cfg : TokenExchangeConfig) (decodeExp : String → Nat)
    (kv : Nat) (events : List TransportEvent) : ServerOut :=
  match getTokenAsync cfg events with
  | (Except.error m, n) => ⟨FetchResult.fail (wrapFinal m), n, []⟩
  | (Except.ok r, n) =>
    if r.status ≠ 200 then
      ⟨FetchResult.fail (wrapFinal
        (AUTH_TOKEN_GENERIC_ERROR ++ (". Response failed with status: ") ++ toString r.status)),
       n, []⟩
    else
      match r.body with
      | RespBody.unparsable => ⟨FetchResult.fail (wrapFinal JSON_PARSE_ERROR), n, []⟩
      | RespBody.json tok _ =>
        match tok with
        | some t =>
          if t = "" then
            ⟨FetchResult.fail (wrapFinal
              (("Invalid UPST token received from OCI IAM Domain. ") ++ TOKEN_EXCHANGE_GENERIC_ERROR)),
             n, []⟩
          else ⟨FetchResult.ok ⟨t, decodeExp t, kv⟩, n, []⟩
        | none =>
          ⟨FetchResult.fail (wrapFinal
            (("Invalid UPST token received from OCI IAM Domain. ") ++ TOKEN_EXCHANGE_GENERIC_ERROR)),
           n, []⟩

/-- Client state: the in-flight refresh slot (the _refreshPromise field, holding
a cycle id when non-null), a counter for fresh cycle ids, the cached adapter,
and the session-key version. -/
structure State where
  refreshPromise : Option Nat
  nextCycleId : Nat
  adapter : SecurityTokenAdapter
  keyVersion : Nat
  deriving Repr, DecidableEq

/-- State right after construction (lines 41-48). -/
def initState : State :=
  ⟨none, 0, emptyAdapter 0, 0⟩

/-- What the entry of refreshAndGetSecurityTokenInner (lines 85-111) does
before any suspension: joins the in-flight cycle if the slot is non-null,
returns the cached token if doFinalTokenValidityCheck and the token is valid,
and otherwise starts a fresh cycle (the async body runs refreshKeys
synchronously, so the key version rotates here) and stores it in the slot. -/
inductive Enter where
  | awaitExisting (id : Nat)
  | cachedToken (t : String)
  | started (id : Nat)
  deriving Repr, DecidableEq

def innerEnter (doCheck : Bool) (now skew : Nat) (s : State) : Enter × State :=
  match s.refreshPromise with
  | some id => (Enter.awaitExisting id, s)
  | none =>
    if doCheck && s.adapter.isValid now skew then
      (Enter.cachedToken s.adapter.token, s)
    else
      (Enter.started s.nextCycleId,
       { s with
          refreshPromise := some s.nextCycleId
          nextCycleId := s.nextCycleId + 1
          keyVersion := s.keyVersion + 1 })

/-- Completion of an in-flight cycle (the tail of the async body, lines
100-107): on success the adapter is replaced; the finally block clears the
slot unconditionally, on success and on failure alike. -/
def cycleComplete (s : State) (outcome : FetchResult) : State :=
  match outcome with
  | FetchResult.ok a => { s with adapter := a, refreshPromise := none }
  | FetchResult.fail _ => { s with refreshPromise := none }

/-- Sequential (single-caller) run of refreshAndGetSecurityTokenInner: enter,
then if a cycle was started, run it to completion.  The awaitExisting branch
cannot produce a value sequentially (the joined cycle's outcome is determined
by the interleaving); it yields a marker error unused by any theorem. -/
def refreshInnerSeq (doCheck : Bool) (now skew : Nat) (cfg : TokenExchangeConfig)
    (decodeExp : String → Nat) (s : State) (events : List TransportEvent) : CallOut State :=
  match innerEnter doCheck now skew s with
  | (Enter.awaitExisting _, s1) =>
    ⟨Except.error (plainErr ("joined in-flight cycle; outcome not sequentially determined")), s1, 0⟩
  | (Enter.cachedToken t, s1) => ⟨Except.ok t, s1, 0⟩
  | (Enter.started _, s1) =>
    let out := getSecurityTokenFromServer cfg decodeExp s1.keyVersion events
    let s2 := cycleComplete s1 out.result
    match out.result with
    | FetchResult.ok a => ⟨Except.ok a.token, s2, out.attempts⟩
    | FetchResult.fail e => ⟨Except.error e, s2, out.attempts⟩

/-- WorkloadIdentityFederationClient.getSecurityToken (lines 57-62). -/
def getSecurityToken (now skew : Nat) (cfg : TokenExchangeConfig)
    (decodeExp : String → Nat) (s : State) (events : List TransportEvent) : CallOut State :=
  if s.adapter.isValid now skew then ⟨Except.ok s.adapter.token, s, 0⟩
  else refreshInnerSeq true now skew cfg decodeExp s events

/-- WorkloadIdentityFederationClient.refreshAndGetSecurityToken (lines 74-76). -/
def refreshAndGetSecurityToken (now skew : Nat) (cfg : TokenExchangeConfig)
    (decodeExp : String → Nat) (s : State) (events : List TransportEvent) : CallOut State :=
  refreshInnerSeq false now skew cfg decodeExp s events

end WorkloadIdentityFederationClient

namespace TokenExchangeWhileGen

/-- The URLSearchParams payload and headers built by the part_002
TokenExchangeFederationClient.getTokenAsync (src/unnamed/part_002 lines
248-268). -/
def buildRequest (endpoint clientCred pub subjTok : String) : HttpRequestModel :=
  { uri := endpoint
    method := "POST"
    encoding := BodyEncoding.formUrlEncoded
    bodyFields :=
      [ (("grant_type"), ("urn:ietf:params:oauth:grant-type:token-exchange")),
        (("requested_token_type"), ("urn:oci:token-type:oci-upst")),
        (("public_key"), sanitizeCertificateString pub),
        (("subject_token"), subjTok),
        (("subject_token_type"), ("jwt")) ]
    headers :=
      [ (("Content-Type"), ("application/x-www-form-urlencoded")),
        (("Authorization"), ("Basic ") ++ clientCred) ] }

/-- Message wrapping done by the catch in the part_002 getTokenAsync (line 276). -/
def wrapCall (m : String) : String :=
  ("Failed to call OCI IAM Domain, error: ") ++ m ++ (". ") ++ TOKEN_EXCHANGE_GENERIC_ERROR

def MAX_ATTEMPTS : Nat := 3
def DELAY_MS : Nat := 1000

/-- The final Error built after the loop exits without a token (part_002 lines
228-234): lastKnownError as the message (or the fallback), shouldBeRetried
false, code -1, and no cause field. -/
def finalError (lastErr : Option String) : ErrInfo :=
  ⟨lastErr.getD ("Failed to get security token after all retry attempts"),
   some false, some (-1), none⟩

/-- Messages set as lastKnownError in the loop body. -/
def statusMsg (s : Nat) : String :=
  AUTH_TOKEN_GENERIC_ERROR ++ (". Response received but failed with status: ") ++ toString s

def readBodyMsg : String :=
  ("Failed to read response body from OCI IAM Domain. ") ++ TOKEN_EXCHANGE_GENERIC_ERROR

def notStringTokenMsg : String :=
  ("Invalid (string) UPST token received from OCI IAM Domain. ") ++ TOKEN_EXCHANGE_GENERIC_ERROR

def emptyTokenMsg : String :=
  ("Invalid (empty) UPST token received from OCI IAM Domain. ") ++ TOKEN_EXCHANGE_GENERIC_ERROR

def transportMsg (m : String) : String :=
  AUTH_TOKEN_GENERIC_ERROR ++ (". Failed with error: ") ++ wrapCall m

/-- Prepend one consumed attempt and the fixed delay before a retried
continuation. -/
def addRetry (out : ServerOut) : ServerOut :=
  ⟨out.result, out.attempts + 1, DELAY_MS :: out.delays⟩

/-- The while loop of the part_002 getSecurityTokenFromServer (lines 123-226),
written with remaining = MAX_ATTEMPTS + 1 - attemptNumber, so the
attemptNumber < maxAttempts retry guard reads remaining > 1, meaning the tail
call is guarded by remaining - 1 > 0.  Each iteration consumes one transport
event.  Terminal breaks fall through to the final error. -/
def go (decodeExp : String → Nat) (kv : Nat) :
    Nat → List TransportEvent → Option String → ServerOut
  | 0, _, lastErr => ⟨FetchResult.fail (finalError lastErr), 0, []⟩
  | remaining + 1, events, _ =>
    match sendEvent events with
    | TransportEvent.err m =>
      if remaining > 0 then
        addRetry (go decodeExp kv remaining events.tail (some (transportMsg m)))
      else ⟨FetchResult.fail (finalError (some (transportMsg m))), 1, []⟩
    | TransportEvent.resp r =>
      if r.status = 200 then
        match r.body with
        | RespBody.unparsable =>
          if remaining > 0 then
            addRetry (go decodeExp kv remaining events.tail (some readBodyMsg))
          else ⟨FetchResult.fail (finalError (some readBodyMsg)), 1, []⟩
        | RespBody.json tok _ =>
          match tok with
          | some t =>
            if t = "" then ⟨FetchResult.fail (finalError (some emptyTokenMsg)), 1, []⟩
            else ⟨FetchResult.ok ⟨t, decodeExp t, kv⟩, 1, []⟩
          | none => ⟨FetchResult.fail (finalError (some notStringTokenMsg)), 1, []⟩
      else if 400 ≤ r.status ∧ r.status < 500 then
        ⟨FetchResult.fail (finalError (some (statusMsg r.status))), 1, []⟩
      else if remaining > 0 then
        addRetry (go decodeExp kv remaining events.tail (some (statusMsg r.status)))
      else ⟨FetchResult.fail (finalError (some (statusMsg r.status))), 1, []⟩

/-- The part_002 getSecurityTokenFromServer (lines 107-235): the key-pair and
public-key checks before the loop throw plain untagged errors; then the retry
loop runs with attemptNumber from 1 to MAX_ATTEMPTS. -/
def getSecurityTokenFromServer (cfg : TokenExchangeConfig) (decodeExp : String → Nat)
    (kv : Nat) (events : List TransportEvent) : ServerOut :=
  if cfg.keyPairPresent = false then
    ⟨FetchResult.fail (plainErr ("keyPair for session was not provided")), 0, []⟩
  else if cfg.publicKey.getD ("") = "" then
    ⟨FetchResult.fail (plainErr ("Public key is not present")), 0, []⟩
  else go decodeExp kv MAX_ATTEMPTS events none

/-- Client state of the part_002 generation: the cached adapter and the
session-key version. -/
structure State where
  adapter : SecurityTokenAdapter
  keyVersion : Nat
  deriving Repr, DecidableEq

def initState : State :=
  ⟨emptyAdapter 0, 0⟩

/-- The part_002 refreshAndGetSecurityTokenInner (lines 89-101): if the check
is skipped or the cached token is invalid, rotate the session keys, run the
server call and replace the adapter on success; a thrown error propagates with
the keys already rotated and the adapter unchanged. -/
def refreshInner (doCheck : Bool) (now skew : Nat) (cfg : TokenExchangeConfig)
    (decodeExp : String → Nat) (s : State) (events : List TransportEvent) : CallOut State :=
  if !doCheck || !(s.adapter.isValid now skew) then
    let kv := s.keyVersion + 1
    let out := getSecurityTokenFromServer cfg decodeExp kv events
    match out.result with
    | FetchResult.ok a => ⟨Except.ok a.token, ⟨a, kv⟩, out.attempts⟩
    | FetchResult.fail e => ⟨Except.error e, ⟨s.adapter, kv⟩, out.attempts⟩
  else ⟨Except.ok s.adapter.token, s, 0⟩

/-- The part_002 getSecurityToken (lines 68-73). -/
def getSecurityToken (now skew : Nat) (cfg : TokenExchangeConfig)
    (decodeExp : String → Nat) (s : State) (events : List TransportEvent) : CallOut State :=
  if s.adapter.isValid now skew then ⟨Except.ok s.adapter.token, s, 0⟩
  else refreshInner true now skew cfg decodeExp s events

/-- The part_002 refreshAndGetSecurityToken (lines 85-87). -/
def refreshAndGetSecurityToken (now skew : Nat) (cfg : TokenExchangeConfig)
    (decodeExp : String → Nat) (s : State) (events : List TransportEvent) : CallOut State :=
  refreshInner false now skew cfg decodeExp s events

end TokenExchangeWhileGen

namespace TokenExchangeRecGen

/-- The JSON payload and headers built by the recursive-retry generation of
TokenExchangeFederationClient (src/unnamed/part_003 lines 90-113): the same
five fields, but the body is JSON.stringify output (not form-encoded) and the
public key is used unsanitized (getPublic().toString()). -/
def buildRequest (endpoint clientCred pub subjTok : String) : HttpRequestModel :=
  { uri := endpoint
    method := "POST"
    encoding := BodyEncoding.jsonString
    bodyFields :=
      [ (("grant_type"), ("urn:ietf:params:oauth:grant-type:token-exchange")),
        (("requested_token_type"), ("urn:oci:token-type:oci-upst")),
        (("public_key"), pub),
        (("subject_token"), subjTok),
        (("subject_token_type"), ("jwt")) ]
    headers :=
      [ (("Content-Type"), ("application/x-www-form-urlencoded")),
        (("Authorization"), ("Basic ") ++ clientCred) ] }

/-- Message wrapping done by the catch at part_003 line 162; every error thrown
inside the try of each recursive getSecurityTokenFromServer activation passes
through it once per activation. -/
def wrapCall (m : String) : String :=
  ("Failed to call OCI IAM Domain, error: ") ++ m ++ (". ") ++ TOKEN_EXCHANGE_GENERIC_ERROR

/-- Wrap a propagating failure once more at an enclosing activation;
a success passes through unchanged (the recursive call's value is returned). -/
def wrapFail : FetchResult → FetchResult
  | FetchResult.ok a => FetchResult.ok a
  | FetchResult.fail e => FetchResult.fail (plainErr (wrapCall e.message))

def statusFailMsg (s : Nat) : String :=
  ("Failed to call OCI IAM Domain for UPST token. Status: ") ++ toString s ++ (". ")
    ++ TOKEN_EXCHANGE_GENERIC_ERROR

def readBodyMsg : String :=
  ("Failed to read response body from OCI IAM Domain. ") ++ TOKEN_EXCHANGE_GENERIC_ERROR

def notStringTokenMsg : String :=
  ("Invalid (string) UPST token received from OCI IAM Domain. ") ++ TOKEN_EXCHANGE_GENERIC_ERROR

def emptyTokenMsg : String :=
  ("Invalid (empty) UPST token received from OCI IAM Domain. ") ++ TOKEN_EXCHANGE_GENERIC_ERROR

/-- The recursive body of the part_003 recursive-retry
getSecurityTokenFromServer (lines 89-164): one send per activation; any
non-200 status is retried (with no delay) while the instance retry counter is
below 3, each unwinding activation wrapping a propagated error once; a 200
resets the counter and the body must parse and carry a non-empty string
access_token field.  Returns the trace together with the instance retry
counter left behind. -/
def go (decodeExp : String → Nat) (kv : Nat) :
    Nat → List TransportEvent → ServerOut × Nat
  | retryCount, [] =>
    (⟨FetchResult.fail (plainErr (wrapCall ("no response"))), 1, []⟩, retryCount)
  | retryCount, ev :: rest =>
    match ev with
    | TransportEvent.err m =>
      (⟨FetchResult.fail (plainErr (wrapCall m)), 1, []⟩, retryCount)
    | TransportEvent.resp r =>
      if r.status ≠ 200 then
        if retryCount < 3 then
          let inner := go decodeExp kv (retryCount + 1) rest
          (⟨wrapFail inner.1.result, inner.1.attempts + 1, inner.1.delays⟩, inner.2)
        else
          (⟨FetchResult.fail (plainErr (wrapCall (statusFailMsg r.status))), 1, []⟩, retryCount)
      else
        match r.body with
        | RespBody.unparsable =>
          (⟨FetchResult.fail (plainErr (wrapCall readBodyMsg)), 1, []⟩, 0)
        | RespBody.json _ accessTok =>
          match accessTok with
          | some t =>
            if t = "" then (⟨FetchResult.fail (plainErr (wrapCall emptyTokenMsg)), 1, []⟩, 0)
            else (⟨FetchResult.ok ⟨t, decodeExp t, kv⟩, 1, []⟩, 0)
          | none => (⟨FetchResult.fail (plainErr (wrapCall notStringTokenMsg)), 1, []⟩, 0)

/-- The part_003 recursive-retry getSecurityTokenFromServer (lines 79-164):
the key-pair and public-key checks before the try throw plain untagged errors;
no thrown error ever carries a shouldBeRetried flag in this generation. -/
def getSecurityTokenFromServer (cfg : TokenExchangeConfig) (decodeExp : String → Nat)
    (kv : Nat) (retryCount : Nat) (events : List TransportEvent) : ServerOut × Nat :=
  if cfg.keyPairPresent = false then
    (⟨FetchResult.fail (plainErr ("keyPair for session was not provided")), 0, []⟩, retryCount)
  else if cfg.publicKey.getD ("") = "" then
    (⟨FetchResult.fail (plainErr ("Public key is not present")), 0, []⟩, retryCount)
  else go decodeExp kv retryCount events

/-- Client state of the recursive-retry generation: the cached adapter, the
session-key version, and the instance-level retry counter (part_003 line 21),
which persists across refresh cycles. -/
structure State where
  adapter : SecurityTokenAdapter
  keyVersion : Nat
  retryCount : Nat
  deriving Repr, DecidableEq

def initState : State :=
  ⟨emptyAdapter 0, 0, 0⟩

/-- The part_003 recursive-generation refreshAndGetSecurityTokenInner (lines
61-73). -/
def refreshInner (doCheck : Bool) (now skew : Nat) (cfg : TokenExchangeConfig)
    (decodeExp : String → Nat) (s : State) (events : List TransportEvent) : CallOut State :=
  if !doCheck || !(s.adapter.isValid now skew) then
    let kv := s.keyVersion + 1
    let out := getSecurityTokenFromServer cfg decodeExp kv s.retryCount events
    match out.1.result with
    | FetchResult.ok a => ⟨Except.ok a.token, ⟨a, kv, out.2⟩, out.1.attempts⟩
    | FetchResult.fail e => ⟨Except.error e, ⟨s.adapter, kv, out.2⟩, out.1.attempts⟩
  else ⟨Except.ok s.adapter.token, s, 0⟩

/-- The part_003 recursive-generation getSecurityToken (lines 40-45). -/
def getSecurityToken (now skew : Nat) (cfg : TokenExchangeConfig)
    (decodeExp : String → Nat) (s : State) (events : List TransportEvent) : CallOut State :=
  if s.adapter.isValid now skew then ⟨Except.ok s.adapter.token, s, 0⟩
  else refreshInner true now skew cfg decodeExp s events

/-- The part_003 recursive-generation refreshAndGetSecurityToken (lines 57-59). -/
def refreshAndGetSecurityToken (now skew : Nat) (cfg : TokenExchangeConfig)
    (decodeExp : String → Nat) (s : State) (events : List TransportEvent) : CallOut State :=
  refreshInner false now skew cfg decodeExp s events

end TokenExchangeRecGen

namespace TokenExchangeForGen

/-- The URLSearchParams payload and headers built by the for-loop generation of
TokenExchangeFederationClient.getTokenAsync (src/unnamed/part_003 lines
395-413); identical to the part_002 request. -/
def buildRequest (endpoint clientCred pub subjTok : String) : HttpRequestModel :=
  TokenExchangeWhileGen.buildRequest endpoint clientCred pub subjTok

/-- Message wrapping done by the catch in the for-loop generation getTokenAsync
(part_003 line 421). -/
def wrapCall (m : String) : String :=
  ("Failed to call OCI IAM Domain, error: ") ++ m ++ (". ") ++ TOKEN_EXCHANGE_GENERIC_ERROR

def MAX_ATTEMPTS : Nat := 3
def DELAY_MS : Nat := 1000

/-- The final Error built after the loop (part_003 lines 346-353): message of
the last known error (or the fallback), that error preserved in the cause
field, shouldBeRetried false and code -1. -/
def finalError (lastErr : Option String) : ErrInfo :=
  ⟨lastErr.getD ("Failed to get security token after all retry attempts"),
   some false, some (-1), lastErr⟩

def statusMsg (s : Nat) : String :=
  AUTH_TOKEN_GENERIC_ERROR ++ (". Response failed with status: ") ++ toString s

def unexpectedStatusMsg (s : Nat) : String :=
  AUTH_TOKEN_GENERIC_ERROR ++ (". Unexpected response status: ") ++ toString s

def invalidTokenMsg : String :=
  ("Invalid UPST token received from OCI IAM Domain. ") ++ TOKEN_EXCHANGE_GENERIC_ERROR

/-- The for-loop generation getTokenAsync (part_003 lines 356-423): key-pair
and public-key checks (thrown raw, before the try), subject resolution and the
send (inside the try, wrapped by the catch). -/
def getTokenAsync (cfg : TokenExchangeConfig) (events : List TransportEvent) :
    Except String HttpResponse × Nat :=
  if cfg.keyPairPresent = false then
    (Except.error ("keyPair for session was not provided"), 0)
  else if cfg.publicKey.getD ("") = "" then
    (Except.error ("Public key is not present"), 0)
  else
    match WorkloadIdentityFederationClient.resolveSubject cfg.subjectToken with
    | Except.error m => (Except.error (wrapCall m), 0)
    | Except.ok s =>
      if s = "" then
        (Except.error (wrapCall ("Resolved subject token is empty or null")), 0)
      else
        match sendEvent events with
        | TransportEvent.err m => (Except.error (wrapCall m), 1)
        | TransportEvent.resp r => (Except.ok r, 1)

/-- Prepend n consumed attempts and the fixed delay before a retried
continuation. -/
def addRetry (n : Nat) (out : ServerOut) : ServerOut :=
  ⟨out.result, out.attempts + n, DELAY_MS :: out.delays⟩

/-- The for loop of the part_003 for-loop getSecurityTokenFromServer (lines
276-343), with remaining = MAX_ATTEMPTS + 1 - attempt.  A 4xx response and a
parsed 200 body without a non-empty string token field break out of the loop
(terminal, via finalError); a thrown error (transport, 5xx, other non-200
status, or a 200 body that fails to parse) is caught as retriable and retried
after the fixed delay while attempts remain. -/
def go (cfg : TokenExchangeConfig) (decodeExp : String → Nat) (kv : Nat) :
    Nat → List TransportEvent → Option String → ServerOut
  | 0, _, lastErr => ⟨FetchResult.fail (finalError lastErr), 0, []⟩
  | remaining + 1, events, _ =>
    match getTokenAsync cfg events with
    | (Except.error m, n) =>
      if remaining > 0 then addRetry n (go cfg decodeExp kv remaining (events.drop n) (some m))
      else ⟨FetchResult.fail (finalError (some m)), n, []⟩
    | (Except.ok r, n) =>
      if 400 ≤ r.status ∧ r.status < 500 then
        ⟨FetchResult.fail (finalError (some (statusMsg r.status))), n, []⟩
      else if 500 ≤ r.status then
        if remaining > 0 then
          addRetry n (go cfg decodeExp kv remaining (events.drop n) (some (statusMsg r.status)))
        else ⟨FetchResult.fail (finalError (some (statusMsg r.status))), n, []⟩
      else if r.status ≠ 200 then
        if remaining > 0 then
          addRetry n
            (go cfg decodeExp kv remaining (events.drop n) (some (unexpectedStatusMsg r.status)))
        else ⟨FetchResult.fail (finalError (some (unexpectedStatusMsg r.status))), n, []⟩
      else
        match r.body with
        | RespBody.unparsable =>
          if remaining > 0 then
            addRetry n (go cfg decodeExp kv remaining (events.drop n) (some JSON_PARSE_ERROR))
          else ⟨FetchResult.fail (finalError (some JSON_PARSE_ERROR)), n, []⟩
        | RespBody.json tok _ =>
          match tok with
          | some t =>
            if t = "" then ⟨FetchResult.fail (finalError (some invalidTokenMsg)), n, []⟩
            else ⟨FetchResult.ok ⟨t, decodeExp t, kv⟩, n, []⟩
          | none => ⟨FetchResult.fail (finalError (some invalidTokenMsg)), n, []⟩

/-- The part_003 for-loop getSecurityTokenFromServer (lines 271-354). -/
def getSecurityTokenFromServer (cfg : TokenExchangeConfig) (decodeExp : String → Nat)
    (kv : Nat) (events : List TransportEvent) : ServerOut :=
  go cfg decodeExp kv MAX_ATTEMPTS events none

/-- Client state of the for-loop generation. -/
structure State where
  adapter : SecurityTokenAdapter
  keyVersion : Nat
  deriving Repr, DecidableEq

def initState : State :=
  ⟨emptyAdapter 0, 0⟩

/-- The part_003 for-loop refreshAndGetSecurityTokenInner (lines 253-265). -/
def refreshInner (doCheck : Bool) (now skew : Nat) (cfg : TokenExchangeConfig)
    (decodeExp : String → Nat) (s : State) (events : List TransportEvent) : CallOut State :=
  if !doCheck || !(s.adapter.isValid now skew) then
    let kv := s.keyVersion + 1
    let out := getSecurityTokenFromServer cfg decodeExp kv events
    match out.result with
    | FetchResult.ok a => ⟨Except.ok a.token, ⟨a, kv⟩, out.attempts⟩
    | FetchResult.fail e => ⟨Except.error e, ⟨s.adapter, kv⟩, out.attempts⟩
  else ⟨Except.ok s.adapter.token, s, 0⟩

/-- The part_003 for-loop getSecurityToken (lines 232-237). -/
def getSecurityToken (now skew : Nat) (cfg : TokenExchangeConfig)
    (decodeExp : String → Nat) (s : State) (events : List TransportEvent) : CallOut State :=
  if s.adapter.isValid now skew then ⟨Except.ok s.adapter.token, s, 0⟩
  else refreshInner true now skew cfg decodeExp s events

/-- The part_003 for-loop refreshAndGetSecurityToken (lines 249-251). -/
def refreshAndGetSecurityToken (now skew : Nat) (cfg : TokenExchangeConfig)
    (decodeExp : String → Nat) (s : State) (events : List TransportEvent) : CallOut State :=
  refreshInner false now skew cfg decodeExp s events

end TokenExchangeForGen

namespace X509FederationClient

/-- Construction-time configuration of X509FederationClient
(X509-federation-client.ts lines 56-73), with the certificate suppliers
embedded by their observable behaviour: leafRefresh is none when the leaf
certificate supplier has no refresh method (the code probes for one at line
129), some (Except.error m) when refresh() rejects, and some (Except.ok t)
when refresh() yields a supplier whose certificate carries tenancy id t. -/
structure Config where
  federationEndpoint : String
  tenancyId : String
  purpose : String
  keyPairPresent : Bool
  publicKey : Option String
  certAndKeyPresent : Bool
  leafCertPresent : Bool
  privateKeyPresent : Bool
  leafRefresh : Option (Except String String)
  intermediateRefreshFailure : Bool
  deriving Repr

def DEFAULT_AUTH_MAX_RETRY_COUNT : Nat := 3

/-- Modelled from the spec: the waiter module (MaxAttemptsTerminationStrategy,
ExponentialBackoffDelayStrategyWithJitter, WaitContextImpl) is not under src/.
The spec gives maxAttempts = 3 total attempts for the auth retry policy;
the termination strategy therefore tells the loop to stop once
attemptCount (number of completed delays) reaches maxAttempts - 1. -/
def shouldTerminate (attemptCount : Nat) : Bool :=
  decide (DEFAULT_AUTH_MAX_RETRY_COUNT - 1 ≤ attemptCount)

/-- X509FederationClient.getTokenAsync (lines 221-283): the session-key and
certificate material checks throw raw errors; otherwise one transport send. -/
def getTokenAsync (cfg : Config) (events : List TransportEvent) :
    Except String HttpResponse × Nat :=
  if cfg.keyPairPresent = false then
    (Except.error ("keyPair for session was not provided"), 0)
  else if cfg.publicKey.getD ("") = "" then
    (Except.error ("Public key is not present"), 0)
  else if cfg.certAndKeyPresent = false then
    (Except.error ("Certificate and key pair are not present"), 0)
  else if cfg.leafCertPresent = false then
    (Except.error ("Leaf certificate is not present"), 0)
  else if cfg.privateKeyPresent = false then
    (Except.error ("Leaf certificate's private key is not present"), 0)
  else
    match sendEvent events with
    | TransportEvent.err m => (Except.error m, 1)
    | TransportEvent.resp r => (Except.ok r, 1)

def statusMsg (s : Nat) : String :=
  AUTH_TOKEN_GENERIC_ERROR ++ (". Response received but failed with status: ") ++ toString s

def thrownMsg (m : String) : String :=
  AUTH_TOKEN_GENERIC_ERROR ++ (". Failed with error: ") ++ m

/-- The while loop of X509FederationClient.getSecurityTokenFromServer (lines
183-207).  Returns the response the loop broke with (if any), the last known
error, the transport attempts consumed and the number of delays performed.
A 200 or 4xx response breaks; other responses retry until the termination
strategy fires; a thrown error retries while attemptCount is below
DEFAULT_AUTH_MAX_RETRY_COUNT - 1.  The fuel argument only bounds the loop
lexically; it is always sufficient for the strategy to fire first. -/
def go (cfg : Config) :
    Nat → Nat → List TransportEvent → Option String →
    Option HttpResponse × Option String × Nat × Nat
  | 0, _, _, lastErr => (none, lastErr, 0, 0)
  | fuel + 1, attemptCount, events, lastErr =>
    match getTokenAsync cfg events with
    | (Except.ok r, n) =>
      if r.status = 200 then (some r, lastErr, n, 0)
      else if 400 ≤ r.status ∧ r.status < 500 then
        (some r, some (statusMsg r.status), n, 0)
      else if shouldTerminate attemptCount then
        (some r, some (statusMsg r.status), n, 0)
      else
        let rec1 := go cfg fuel (attemptCount + 1) (events.drop n) (some (statusMsg r.status))
        (rec1.1, rec1.2.1, rec1.2.2.1 + n, rec1.2.2.2 + 1)
    | (Except.error m, n) =>
      if attemptCount < DEFAULT_AUTH_MAX_RETRY_COUNT - 1 then
        let rec1 := go cfg fuel (attemptCount + 1) (events.drop n) (some (thrownMsg m))
        (rec1.1, rec1.2.1, rec1.2.2.1 + n, rec1.2.2.2 + 1)
      else (none, some (thrownMsg m), n, 0)

/-- X509FederationClient.getSecurityTokenFromServer (lines 176-219).  After the
loop: a 200 response is parsed (a parse failure propagates as a raw, untagged
error; a missing token field is accepted and stored as the empty string, the
JS stores undefined); otherwise an error object with shouldBeRetried false and
code -1 is thrown. -/
def getSecurityTokenFromServer (cfg : Config) (decodeExp : String → Nat)
    (kv : Nat) (events : List TransportEvent) : ServerOut :=
  let r4 := go cfg (DEFAULT_AUTH_MAX_RETRY_COUNT + 1) 0 events none
  let delays := List.replicate r4.2.2.2 0
  match r4.1 with
  | some r =>
    if r.status = 200 then
      match r.body with
      | RespBody.unparsable =>
        ⟨FetchResult.fail (plainErr JSON_PARSE_ERROR), r4.2.2.1, delays⟩
      | RespBody.json tok _ =>
        ⟨FetchResult.ok ⟨tok.getD (""), decodeExp (tok.getD ("")), kv⟩, r4.2.2.1, delays⟩
    else
      ⟨FetchResult.fail ⟨(r4.2.1).getD (""), some false, some (-1), none⟩, r4.2.2.1, delays⟩
  | none =>
    ⟨FetchResult.fail ⟨(r4.2.1).getD (""), some false, some (-1), none⟩, r4.2.2.1, delays⟩

/-- Client state of X509FederationClient: the cached adapter, the session-key
version, and the tenancy id carried by the current leaf certificate. -/
structure State where
  adapter : SecurityTokenAdapter
  keyVersion : Nat
  leafCertTenancy : String
  deriving Repr, DecidableEq

/-- Continuation of refreshAndGetSecurityTokenInner after the certificate
suppliers were refreshed (lines 150-167): intermediate supplier refresh
failures throw before any network call; then the server call runs and the
adapter is replaced on success. -/
def afterCertRefresh (cfg : Config) (decodeExp : String → Nat) (s : State)
    (events : List TransportEvent) : CallOut State :=
  if cfg.intermediateRefreshFailure then
    ⟨Except.error (plainErr (("Cannot refresh the intermediate certification. ")
        ++ INSTANCE_PRINCIPAL_GENERIC_ERROR)), s, 0⟩
  else
    let out := getSecurityTokenFromServer cfg decodeExp s.keyVersion events
    match out.result with
    | FetchResult.ok a => ⟨Except.ok a.token, { s with adapter := a }, out.attempts⟩
    | FetchResult.fail e => ⟨Except.error e, s, out.attempts⟩

/-- X509FederationClient.refreshAndGetSecurityTokenInner (lines 121-170):
after the validity check, the session keys rotate; if the leaf certificate
supplier has a refresh method it is refreshed, and with purpose DEFAULT the
tenancy id parsed out of the refreshed certificate must equal the configured
tenancy id, a mismatch throwing before any network call; a supplier without a
refresh method skips both the refresh and the tenancy check. -/
def refreshInner (doCheck : Bool) (now skew : Nat) (cfg : Config)
    (decodeExp : String → Nat) (s : State) (events : List TransportEvent) : CallOut State :=
  if doCheck && s.adapter.isValid now skew then ⟨Except.ok s.adapter.token, s, 0⟩
  else
    let s1 : State := { s with keyVersion := s.keyVersion + 1 }
    match cfg.leafRefresh with
    | some (Except.error e) =>
      ⟨Except.error (plainErr (("Fail to refresh leafCertificateSupplier, error: ") ++ e
          ++ (". ") ++ INSTANCE_PRINCIPAL_GENERIC_ERROR)), s1, 0⟩
    | some (Except.ok newTenancy) =>
      let s2 : State := { s1 with leafCertTenancy := newTenancy }
      if cfg.purpose = "DEFAULT" ∧ cfg.tenancyId ≠ newTenancy then
        ⟨Except.error (plainErr ("The tenancy id should never be changed in cert file!")), s2, 0⟩
      else afterCertRefresh cfg decodeExp s2 events
    | none => afterCertRefresh cfg decodeExp s1 events

/-- X509FederationClient.getSecurityToken (lines 100-105). -/
def getSecurityToken (now skew : Nat) (cfg : Config)
    (decodeExp : String → Nat) (s : State) (events : List TransportEvent) : CallOut State :=
  if s.adapter.isValid now skew then ⟨Except.ok s.adapter.token, s, 0⟩
  else refreshInner true now skew cfg decodeExp s events

/-- X509FederationClient.refreshAndGetSecurityToken (lines 117-119). -/
def refreshAndGetSecurityToken (now skew : Nat) (cfg : Config)
    (decodeExp : String → Nat) (s : State) (events : List TransportEvent) : CallOut State :=
  refreshInner false now skew cfg decodeExp s events

end X509FederationClient

/-- Whether a fetch outcome is a thrown error. -/
def FetchResult.isFail : FetchResult → Bool
  | FetchResult.fail _ => true
  | FetchResult.ok _ => false

/-- The shouldBeRetried flag carried by a failed outcome (none for success or
for an error the code did not tag). -/
def FetchResult.retryFlag : FetchResult → Option Bool
  | FetchResult.fail e => e.shouldBeRetried
  | FetchResult.ok _ => none

/-- The key version recorded in the adapter of a successful outcome. -/
def FetchResult.okKeyVersion : FetchResult → Option Nat
  | FetchResult.ok a => some a.keyVersion
  | FetchResult.fail _ => none

/-- A transport outcome the spec calls retriable: a transport-level error or an
HTTP status of at least 500. -/
def retriableEvt : TransportEvent → Bool
  | TransportEvent.err _ => true
  | TransportEvent.resp r => decide (500 ≤ r.status)

/-- The lastKnownError message the part_002 loop records for a retriable event. -/
def te2EventMsg : TransportEvent → String
  | TransportEvent.err m => TokenExchangeWhileGen.transportMsg m
  | TransportEvent.resp r => TokenExchangeWhileGen.statusMsg r.status

/-- The lastKnownError message the part_003 for loop records for a retriable
event (a thrown transport error arrives wrapped by getTokenAsync's catch). -/
def te3EventMsg : TransportEvent → String
  | TransportEvent.err m => TokenExchangeForGen.wrapCall m
  | TransportEvent.resp r => TokenExchangeForGen.statusMsg r.status

/-- Value of a body field in a built request. -/
def fieldVal (r : HttpRequestModel) (k : String) : Option String :=
  ((r.bodyFields.filter (fun p => p.1 = k)).head?).map (fun p => p.2)

/-- A well-formed bearer-credential configuration used to instantiate closed
theorems. -/
def fixtureCfg : TokenExchangeConfig :=
  ⟨("https://host/oauth2/v1/token"), ("cred"), true, some ("PK"), SubjectToken.str ("subj")⟩

/-- A decode function assigning every token the expiry 1000, used to
instantiate closed theorems. -/
def fixtureDec : String → Nat := fun _ => 1000

def resp200 (t : String) : TransportEvent :=
  TransportEvent.resp ⟨200, RespBody.json (some t) (some t)⟩

def respStatus (s : Nat) : TransportEvent :=
  TransportEvent.resp ⟨s, RespBody.json none none⟩

def respUnparsable : TransportEvent :=
  TransportEvent.resp ⟨200, RespBody.unparsable⟩

/-- A well-formed X509 configuration whose leaf supplier is refreshable and
keeps its tenancy id. -/
def fixtureX509Cfg : X509FederationClient.Config :=
  ⟨("https://fed"), ("tenA"), ("DEFAULT"), true, some ("PK"), true, true, true,
   some (Except.ok ("tenA")), false⟩

/-- An X509 configuration whose leaf supplier has no refresh method. -/
def x509StaticCfg : X509FederationClient.Config :=
  ⟨("https://fed"), ("tenA"), ("DEFAULT"), true, some ("PK"), true, true, true,
   none, false⟩

def x509InitState : X509FederationClient.State :=
  ⟨emptyAdapter 0, 0, ("tenA")⟩

/-- An X509 state whose current leaf certificate carries a tenancy id different
from the configured one. -/
def x509MismatchState : X509FederationClient.State :=
  ⟨emptyAdapter 0, 0, ("tenB")⟩

/-- A workload-identity state with a refresh cycle (id 5) in flight and a still
valid cached token. -/
def wiInflightValidState : WorkloadIdentityFederationClient.State :=
  ⟨some 5, 6, ⟨("old"), 100, 0⟩, 0⟩

/-- A part_002 state holding a cached token that is still valid and paired with
the current session-key version. -/
def te2PairedState : TokenExchangeWhileGen.State :=
  ⟨⟨("oldtok"), 100, 0⟩, 0⟩

/-- A part_002 configuration whose session-key supplier yields no key pair. -/
def cfgNoKeyPair : TokenExchangeConfig :=
  ⟨("https://host/oauth2/v1/token"), ("cred"), false, some ("PK"), SubjectToken.str ("subj")⟩

/-- An X509 configuration whose refreshable leaf supplier comes back after
rotation with a certificate for tenancy tenB while the client is configured
for tenancy tenA. -/
def x509RotatedCfg : X509FederationClient.Config :=
  ⟨("https://fed"), ("tenA"), ("DEFAULT"), true, some ("PK"), true, true, true,
   some (Except.ok ("tenB")), false⟩

theorem wi_cached (now skew : Nat) (cfg : TokenExchangeConfig) (dec : String → Nat)
    (s : WorkloadIdentityFederationClient.State) (events : List TransportEvent)
    (h : s.adapter.isValid now skew = true) :
    WorkloadIdentityFederationClient.getSecurityToken now skew cfg dec s events
      = ⟨Except.ok s.adapter.token, s, 0⟩ := by
  simp [WorkloadIdentityFederationClient.getSecurityToken, h]

theorem te2_cached (now skew : Nat) (cfg : TokenExchangeConfig) (dec : String → Nat)
    (s : TokenExchangeWhileGen.State) (events : List TransportEvent)
    (h : s.adapter.isValid now skew = true) :
    TokenExchangeWhileGen.getSecurityToken now skew cfg dec s events
      = ⟨Except.ok s.adapter.token, s, 0⟩ := by
  simp [TokenExchangeWhileGen.getSecurityToken, h]

theorem rec_cached (now skew : Nat) (cfg : TokenExchangeConfig) (dec : String → Nat)
    (s : TokenExchangeRecGen.State) (events : List TransportEvent)
    (h : s.adapter.isValid now skew = true) :
    TokenExchangeRecGen.getSecurityToken now skew cfg dec s events
      = ⟨Except.ok s.adapter.token, s, 0⟩ := by
  simp [TokenExchangeRecGen.getSecurityToken, h]

theorem te3_cached (now skew : Nat) (cfg : TokenExchangeConfig) (dec : String → Nat)
    (s : TokenExchangeForGen.State) (events : List TransportEvent)
    (h : s.adapter.isValid now skew = true) :
    TokenExchangeForGen.getSecurityToken now skew cfg dec s events
      = ⟨Except.ok s.adapter.token, s, 0⟩ := by
  simp [TokenExchangeForGen.getSecurityToken, h]

theorem x509_cached (now skew : Nat) (cfg : X509FederationClient.Config) (dec : String → Nat)
    (s : X509FederationClient.State) (events : List TransportEvent)
    (h : s.adapter.isValid now skew = true) :
    X509FederationClient.getSecurityToken now skew cfg dec s events
      = ⟨Except.ok s.adapter.token, s, 0⟩ := by
  simp [X509FederationClient.getSecurityToken, h]

theorem wi_roundtrip (dec : String → Nat) (t : String) (hT : ¬ t = "")
    (now1 now2 skew : Nat) (hV : now2 + skew < dec t) :
    WorkloadIdentityFederationClient.getSecurityToken now1 skew fixtureCfg dec
        WorkloadIdentityFederationClient.initState [resp200 t]
      = ⟨Except.ok t, ⟨none, 1, ⟨t, dec t, 1⟩, 1⟩, 1⟩ ∧
    WorkloadIdentityFederationClient.getSecurityToken now2 skew fixtureCfg dec
        ⟨none, 1, ⟨t, dec t, 1⟩, 1⟩ []
      = ⟨Except.ok t, ⟨none, 1, ⟨t, dec t, 1⟩, 1⟩, 0⟩ := by
  constructor
  · simp [WorkloadIdentityFederationClient.getSecurityToken,
      WorkloadIdentityFederationClient.initState, emptyAdapter, SecurityTokenAdapter.isValid,
      WorkloadIdentityFederationClient.refreshInnerSeq,
      WorkloadIdentityFederationClient.innerEnter,
      WorkloadIdentityFederationClient.getSecurityTokenFromServer,
      WorkloadIdentityFederationClient.getTokenAsync,
      WorkloadIdentityFederationClient.resolveSubject,
      fixtureCfg, sendEvent, resp200, hT, WorkloadIdentityFederationClient.cycleComplete]
  · exact wi_cached now2 skew fixtureCfg dec _ [] (decide_eq_true hV)

theorem te2_roundtrip (dec : String → Nat) (t : String) (hT : ¬ t = "")
    (now1 now2 skew : Nat) (hV : now2 + skew < dec t) :
    TokenExchangeWhileGen.getSecurityToken now1 skew fixtureCfg dec
        TokenExchangeWhileGen.initState [resp200 t]
      = ⟨Except.ok t, ⟨⟨t, dec t, 1⟩, 1⟩, 1⟩ ∧
    TokenExchangeWhileGen.getSecurityToken now2 skew fixtureCfg dec ⟨⟨t, dec t, 1⟩, 1⟩ []
      = ⟨Except.ok t, ⟨⟨t, dec t, 1⟩, 1⟩, 0⟩ := by
  constructor
  · simp [TokenExchangeWhileGen.getSecurityToken, TokenExchangeWhileGen.initState,
      emptyAdapter, SecurityTokenAdapter.isValid, TokenExchangeWhileGen.refreshInner,
      TokenExchangeWhileGen.getSecurityTokenFromServer, fixtureCfg,
      TokenExchangeWhileGen.MAX_ATTEMPTS, TokenExchangeWhileGen.go, sendEvent, resp200, hT]
  · exact te2_cached now2 skew fixtureCfg dec _ [] (decide_eq_true hV)

theorem rec_roundtrip (dec : String → Nat) (t : String) (hT : ¬ t = "")
    (now1 now2 skew : Nat) (hV : now2 + skew < dec t) :
    TokenExchangeRecGen.getSecurityToken now1 skew fixtureCfg dec
        TokenExchangeRecGen.initState [resp200 t]
      = ⟨Except.ok t, ⟨⟨t, dec t, 1⟩, 1, 0⟩, 1⟩ ∧
    TokenExchangeRecGen.getSecurityToken now2 skew fixtureCfg dec ⟨⟨t, dec t, 1⟩, 1, 0⟩ []
      = ⟨Except.ok t, ⟨⟨t, dec t, 1⟩, 1, 0⟩, 0⟩ := by
  constructor
  · simp [TokenExchangeRecGen.getSecurityToken, TokenExchangeRecGen.initState,
      emptyAdapter, SecurityTokenAdapter.isValid, TokenExchangeRecGen.refreshInner,
      TokenExchangeRecGen.getSecurityTokenFromServer, fixtureCfg,
      TokenExchangeRecGen.go, sendEvent, resp200, hT]
  · exact rec_cached now2 skew fixtureCfg dec _ [] (decide_eq_true hV)

theorem te3_roundtrip (dec : String → Nat) (t : String) (hT : ¬ t = "")
    (now1 now2 skew : Nat) (hV : now2 + skew < dec t) :
    TokenExchangeForGen.getSecurityToken now1 skew fixtureCfg dec
        TokenExchangeForGen.initState [resp200 t]
      = ⟨Except.ok t, ⟨⟨t, dec t, 1⟩, 1⟩, 1⟩ ∧
    TokenExchangeForGen.getSecurityToken now2 skew fixtureCfg dec ⟨⟨t, dec t, 1⟩, 1⟩ []
      = ⟨Except.ok t, ⟨⟨t, dec t, 1⟩, 1⟩, 0⟩ := by
  constructor
  · simp [TokenExchangeForGen.getSecurityToken, TokenExchangeForGen.initState,
      emptyAdapter, SecurityTokenAdapter.isValid, TokenExchangeForGen.refreshInner,
      TokenExchangeForGen.getSecurityTokenFromServer, fixtureCfg,
      TokenExchangeForGen.MAX_ATTEMPTS, TokenExchangeForGen.go,
      TokenExchangeForGen.getTokenAsync,
      WorkloadIdentityFederationClient.resolveSubject, sendEvent, resp200, hT]
  · exact te3_cached now2 skew fixtureCfg dec _ [] (decide_eq_true hV)

theorem x509_roundtrip (dec : String → Nat) (t : String)
    (now1 now2 skew : Nat) (hV : now2 + skew < dec t) :
    X509FederationClient.getSecurityToken now1 skew fixtureX509Cfg dec
        x509InitState [resp200 t]
      = ⟨Except.ok t, ⟨⟨t, dec t, 1⟩, 1, ("tenA")⟩, 1⟩ ∧
    X509FederationClient.getSecurityToken now2 skew fixtureX509Cfg dec
        ⟨⟨t, dec t, 1⟩, 1, ("tenA")⟩ []
      = ⟨Except.ok t, ⟨⟨t, dec t, 1⟩, 1, ("tenA")⟩, 0⟩ := by
  constructor
  · simp [X509FederationClient.getSecurityToken, x509InitState,
      emptyAdapter, SecurityTokenAdapter.isValid, X509FederationClient.refreshInner,
      X509FederationClient.afterCertRefresh,
      X509FederationClient.getSecurityTokenFromServer, X509FederationClient.go,
      X509FederationClient.getTokenAsync, fixtureX509Cfg,
      X509FederationClient.DEFAULT_AUTH_MAX_RETRY_COUNT, sendEvent, resp200]
  · exact x509_cached now2 skew fixtureX509Cfg dec _ [] (decide_eq_true hV)

/-- C1: for every FederationClient variant, getSecurityToken returns the
cached token unchanged with zero transport attempts whenever the cached token
is valid, and only performs a refresh when it is invalid; starting from the
freshly constructed client, a first call against a 200 response carrying token
t returns t with exactly one transport attempt, and a second call before
expiry returns the same token with zero further attempts, so the two calls
perform one exchange request in total. -/
theorem claim1_cached_token_reuse :
    (∀ (now skew : Nat) (cfg : TokenExchangeConfig) (dec : String → Nat)
        (s : WorkloadIdentityFederationClient.State) (events : List TransportEvent),
      s.adapter.isValid now skew = true →
      WorkloadIdentityFederationClient.getSecurityToken now skew cfg dec s events
        = ⟨Except.ok s.adapter.token, s, 0⟩) ∧
    (∀ (now skew : Nat) (cfg : TokenExchangeConfig) (dec : String → Nat)
        (s : TokenExchangeWhileGen.State) (events : List TransportEvent),
      s.adapter.isValid now skew = true →
      TokenExchangeWhileGen.getSecurityToken now skew cfg dec s events
        = ⟨Except.ok s.adapter.token, s, 0⟩) ∧
    (∀ (now skew : Nat) (cfg : TokenExchangeConfig) (dec : String → Nat)
        (s : TokenExchangeRecGen.State) (events : List TransportEvent),
      s.adapter.isValid now skew = true →
      TokenExchangeRecGen.getSecurityToken now skew cfg dec s events
        = ⟨Except.ok s.adapter.token, s, 0⟩) ∧
    (∀ (now skew : Nat) (cfg : TokenExchangeConfig) (dec : String → Nat)
        (s : TokenExchangeForGen.State) (events : List TransportEvent),
      s.adapter.isValid now skew = true →
      TokenExchangeForGen.getSecurityToken now skew cfg dec s events
        = ⟨Except.ok s.adapter.token, s, 0⟩) ∧
    (∀ (now skew : Nat) (cfg : X509FederationClient.Config) (dec : String → Nat)
        (s : X509FederationClient.State) (events : List TransportEvent),
      s.adapter.isValid now skew = true →
      X509FederationClient.getSecurityToken now skew cfg dec s events
        = ⟨Except.ok s.adapter.token, s, 0⟩) ∧
    (∀ (dec : String → Nat) (t : String), ¬ t = "" → ∀ (now1 now2 skew : Nat),
      now2 + skew < dec t →
      WorkloadIdentityFederationClient.getSecurityToken now1 skew fixtureCfg dec
          WorkloadIdentityFederationClient.initState [resp200 t]
        = ⟨Except.ok t, ⟨none, 1, ⟨t, dec t, 1⟩, 1⟩, 1⟩ ∧
      WorkloadIdentityFederationClient.getSecurityToken now2 skew fixtureCfg dec
          ⟨none, 1, ⟨t, dec t, 1⟩, 1⟩ []
        = ⟨Except.ok t, ⟨none, 1, ⟨t, dec t, 1⟩, 1⟩, 0⟩) ∧
    (∀ (dec : String → Nat) (t : String), ¬ t = "" → ∀ (now1 now2 skew : Nat),
      now2 + skew < dec t →
      TokenExchangeWhileGen.getSecurityToken now1 skew fixtureCfg dec
          TokenExchangeWhileGen.initState [resp200 t]
        = ⟨Except.ok t, ⟨⟨t, dec t, 1⟩, 1⟩, 1⟩ ∧
      TokenExchangeWhileGen.getSecurityToken now2 skew fixtureCfg dec ⟨⟨t, dec t, 1⟩, 1⟩ []
        = ⟨Except.ok t, ⟨⟨t, dec t, 1⟩, 1⟩, 0⟩) ∧
    (∀ (dec : String → Nat) (t : String), ¬ t = "" → ∀ (now1 now2 skew : Nat),
      now2 + skew < dec t →
      TokenExchangeRecGen.getSecurityToken now1 skew fixtureCfg dec
          TokenExchangeRecGen.initState [resp200 t]
        = ⟨Except.ok t, ⟨⟨t, dec t, 1⟩, 1, 0⟩, 1⟩ ∧
      TokenExchangeRecGen.getSecurityToken now2 skew fixtureCfg dec ⟨⟨t, dec t, 1⟩, 1, 0⟩ []
        = ⟨Except.ok t, ⟨⟨t, dec t, 1⟩, 1, 0⟩, 0⟩) ∧
    (∀ (dec : String → Nat) (t : String), ¬ t = "" → ∀ (now1 now2 skew : Nat),
      now2 + skew < dec t →
      TokenExchangeForGen.getSecurityToken now1 skew fixtureCfg dec
          TokenExchangeForGen.initState [resp200 t]
        = ⟨Except.ok t, ⟨⟨t, dec t, 1⟩, 1⟩, 1⟩ ∧
      TokenExchangeForGen.getSecurityToken now2 skew fixtureCfg dec ⟨⟨t, dec t, 1⟩, 1⟩ []
        = ⟨Except.ok t, ⟨⟨t, dec t, 1⟩, 1⟩, 0⟩) ∧
    (∀ (dec : String → Nat) (t : String) (now1 now2 skew : Nat),
      now2 + skew < dec t →
      X509FederationClient.getSecurityToken now1 skew fixtureX509Cfg dec
          x509InitState [resp200 t]
        = ⟨Except.ok t, ⟨⟨t, dec t, 1⟩, 1, ("tenA")⟩, 1⟩ ∧
      X509FederationClient.getSecurityToken now2 skew fixtureX509Cfg dec
          ⟨⟨t, dec t, 1⟩, 1, ("tenA")⟩ []
        = ⟨Except.ok t, ⟨⟨t, dec t, 1⟩, 1, ("tenA")⟩, 0⟩) :=
  ⟨wi_cached, te2_cached, rec_cached, te3_cached, x509_cached,
   fun dec t hT now1 now2 skew hV => wi_roundtrip dec t hT now1 now2 skew hV,
   fun dec t hT now1 now2 skew hV => te2_roundtrip dec t hT now1 now2 skew hV,
   fun dec t hT now1 now2 skew hV => rec_roundtrip dec t hT now1 now2 skew hV,
   fun dec t hT now1 now2 skew hV => te3_roundtrip dec t hT now1 now2 skew hV,
   fun dec t now1 now2 skew hV => x509_roundtrip dec t now1 now2 skew hV⟩

/-- Witness for C1 at concrete inputs: a valid cached token is returned
unchanged with zero attempts, and the fresh-client round trip returns the
served token with one transport attempt then zero. -/
theorem claim1_cached_token_reuse_witness :
    TokenExchangeWhileGen.getSecurityToken 0 0 fixtureCfg fixtureDec te2PairedState []
      = ⟨Except.ok ("oldtok"), te2PairedState, 0⟩ ∧
    (TokenExchangeWhileGen.getSecurityToken 5 0 fixtureCfg fixtureDec
        TokenExchangeWhileGen.initState [resp200 ("tok")]
      = ⟨Except.ok ("tok"), ⟨⟨("tok"), 1000, 1⟩, 1⟩, 1⟩ ∧
     TokenExchangeWhileGen.getSecurityToken 7 0 fixtureCfg fixtureDec ⟨⟨("tok"), 1000, 1⟩, 1⟩ []
      = ⟨Except.ok ("tok"), ⟨⟨("tok"), 1000, 1⟩, 1⟩, 0⟩) ∧
    (WorkloadIdentityFederationClient.getSecurityToken 5 0 fixtureCfg fixtureDec
        WorkloadIdentityFederationClient.initState [resp200 ("tok")]
      = ⟨Except.ok ("tok"), ⟨none, 1, ⟨("tok"), 1000, 1⟩, 1⟩, 1⟩) ∧
    (TokenExchangeRecGen.getSecurityToken 5 0 fixtureCfg fixtureDec
        TokenExchangeRecGen.initState [resp200 ("tok")]
      = ⟨Except.ok ("tok"), ⟨⟨("tok"), 1000, 1⟩, 1, 0⟩, 1⟩) ∧
    (TokenExchangeForGen.getSecurityToken 5 0 fixtureCfg fixtureDec
        TokenExchangeForGen.initState [resp200 ("tok")]
      = ⟨Except.ok ("tok"), ⟨⟨("tok"), 1000, 1⟩, 1⟩, 1⟩) ∧
    (X509FederationClient.getSecurityToken 5 0 fixtureX509Cfg fixtureDec
        x509InitState [resp200 ("tok")]
      = ⟨Except.ok ("tok"), ⟨⟨("tok"), 1000, 1⟩, 1, ("tenA")⟩, 1⟩) :=
  ⟨claim1_cached_token_reuse.2.1 0 0 fixtureCfg fixtureDec te2PairedState [] (by decide),
   ⟨(claim1_cached_token_reuse.2.2.2.2.2.2.1 fixtureDec ("tok") (by decide) 5 7 0
       (by decide)).1,
    (claim1_cached_token_reuse.2.2.2.2.2.2.1 fixtureDec ("tok") (by decide) 5 7 0
       (by decide)).2⟩,
   (claim1_cached_token_reuse.2.2.2.2.2.1 fixtureDec ("tok") (by decide) 5 7 0
       (by decide)).1,
   (claim1_cached_token_reuse.2.2.2.2.2.2.2.1 fixtureDec ("tok") (by decide) 5 7 0
       (by decide)).1,
   (claim1_cached_token_reuse.2.2.2.2.2.2.2.2.1 fixtureDec ("tok") (by decide) 5 7 0
       (by decide)).1,
   (claim1_cached_token_reuse.2.2.2.2.2.2.2.2.2 fixtureDec ("tok") 5 7 0
       (by decide)).1⟩

/-- C2 counterexample: with a refresh cycle in flight (slot holds cycle id 5)
and a cached token that is still valid, getSecurityToken returns the old
cached token immediately (its validity check at line 58 runs before the
in-flight slot is consulted), so the call does not return the result of the
in-progress cycle: that cycle may complete with a different token ("new"). -/
theorem claim2_counterexample_valid_cache_bypasses_join :
    wiInflightValidState.refreshPromise = some 5 ∧
    WorkloadIdentityFederationClient.getSecurityToken 0 0 fixtureCfg fixtureDec
        wiInflightValidState []
      = ⟨Except.ok ("old"), wiInflightValidState, 0⟩ ∧
    (WorkloadIdentityFederationClient.cycleComplete wiInflightValidState
        (FetchResult.ok ⟨("new"), 500, 1⟩)).adapter.token = ("new") ∧
    ¬ (("old") : String) = ("new") :=
  ⟨rfl, rfl, rfl, by decide⟩

/-- C2 (amended): for the workload-identity variant, any call to
refreshAndGetSecurityToken made while a refresh cycle is in flight, and any
call to getSecurityToken that does not find a valid cached token, joins the
in-progress cycle (state unchanged, no new cycle started, zero transport
attempts); when the in-flight cycle completes, with a token or with an error,
the slot is cleared unconditionally, and a subsequent call finding an invalid
cache always starts a fresh cycle. -/
theorem claim2_amended_single_flight :
    (∀ (now skew : Nat) (s : WorkloadIdentityFederationClient.State) (id : Nat),
      s.refreshPromise = some id →
      WorkloadIdentityFederationClient.innerEnter false now skew s
        = (WorkloadIdentityFederationClient.Enter.awaitExisting id, s) ∧
      WorkloadIdentityFederationClient.innerEnter true now skew s
        = (WorkloadIdentityFederationClient.Enter.awaitExisting id, s)) ∧
    (∀ (now skew : Nat) (cfg : TokenExchangeConfig) (dec : String → Nat)
        (s : WorkloadIdentityFederationClient.State) (events : List TransportEvent)
        (id : Nat), s.refreshPromise = some id →
      (WorkloadIdentityFederationClient.refreshAndGetSecurityToken
          now skew cfg dec s events).state = s ∧
      (WorkloadIdentityFederationClient.refreshAndGetSecurityToken
          now skew cfg dec s events).attempts = 0) ∧
    (∀ (s : WorkloadIdentityFederationClient.State) (outcome : FetchResult),
      (WorkloadIdentityFederationClient.cycleComplete s outcome).refreshPromise = none) ∧
    (∀ (doCheck : Bool) (now skew : Nat) (s : WorkloadIdentityFederationClient.State)
        (outcome : FetchResult),
      (WorkloadIdentityFederationClient.cycleComplete s outcome).adapter.isValid now skew
          = false →
      (WorkloadIdentityFederationClient.innerEnter doCheck now skew
          (WorkloadIdentityFederationClient.cycleComplete s outcome)).1
        = WorkloadIdentityFederationClient.Enter.started
            (WorkloadIdentityFederationClient.cycleComplete s outcome).nextCycleId) := by
  refine ⟨?_, ?_, ?_, ?_⟩
  · intro now skew s id h
    constructor <;> simp [WorkloadIdentityFederationClient.innerEnter, h]
  · intro now skew cfg dec s events id h
    constructor <;>
      simp [WorkloadIdentityFederationClient.refreshAndGetSecurityToken,
        WorkloadIdentityFederationClient.refreshInnerSeq,
        WorkloadIdentityFederationClient.innerEnter, h]
  · intro s outcome
    cases outcome <;> simp [WorkloadIdentityFederationClient.cycleComplete]
  · intro doCheck now skew s outcome h
    cases outcome <;>
      simp_all [WorkloadIdentityFederationClient.cycleComplete,
        WorkloadIdentityFederationClient.innerEnter]

/-- Witness for C2 at concrete inputs: with cycle id 5 in flight, both entry
points join it and a refreshAndGetSecurityToken call consumes no transport
attempt; completion of the cycle (success or failure) clears the slot, after
which a call finding an invalid cache starts cycle id 6. -/
theorem claim2_amended_single_flight_witness :
    WorkloadIdentityFederationClient.innerEnter false 0 0 wiInflightValidState
      = (WorkloadIdentityFederationClient.Enter.awaitExisting 5, wiInflightValidState) ∧
    (WorkloadIdentityFederationClient.refreshAndGetSecurityToken 0 0 fixtureCfg fixtureDec
        wiInflightValidState []).attempts = 0 ∧
    (WorkloadIdentityFederationClient.cycleComplete wiInflightValidState
        (FetchResult.fail (plainErr ("boom")))).refreshPromise = none ∧
    (WorkloadIdentityFederationClient.innerEnter true 200 0
        (WorkloadIdentityFederationClient.cycleComplete wiInflightValidState
          (FetchResult.fail (plainErr ("boom"))))).1
      = WorkloadIdentityFederationClient.Enter.started 6 :=
  ⟨(claim2_amended_single_flight.1 0 0 wiInflightValidState 5 rfl).1,
   (claim2_amended_single_flight.2.1 0 0 fixtureCfg fixtureDec wiInflightValidState [] 5 rfl).2,
   claim2_amended_single_flight.2.2.1 wiInflightValidState
     (FetchResult.fail (plainErr ("boom"))),
   claim2_amended_single_flight.2.2.2 true 200 0 wiInflightValidState
     (FetchResult.fail (plainErr ("boom"))) (by decide)⟩

/-- C3 counterexample: in the recursive-retry generation (src/unnamed/part_003
lines 119-131) any non-200 status is retried while the instance counter is
below 3, so a refresh cycle fed 401 responses performs 4 transport attempts,
not 1: a 401 is retried in that variant. -/
theorem claim3_counterexample_rec_retries_401 :
    (TokenExchangeRecGen.getSecurityTokenFromServer fixtureCfg fixtureDec 1 0
        [respStatus 401, respStatus 401, respStatus 401, respStatus 401]).1.attempts = 4 ∧
    (TokenExchangeRecGen.getSecurityTokenFromServer fixtureCfg fixtureDec 1 0
        [respStatus 401, respStatus 401, respStatus 401, respStatus 401]).1.result.isFail
      = true ∧
    ¬ (4 : Nat) = 1 := by
  refine ⟨by decide, by decide, by decide⟩

/-- C3 (amended): in the workload-identity variant, both loop generations of
the token-exchange client, and the X509 client, a response with HTTP status in
[400,500) fails the refresh cycle terminally at once, with exactly one
transport attempt and no inter-attempt delay (in particular a 401 is never
retried); the recursive-retry generation instead retries any non-200 status,
including 401, while its persisted retry counter is below 3. -/
theorem claim3_amended_4xx_terminal_one_attempt
    (st : Nat) (h4 : 400 ≤ st) (h5 : st < 500) (b : RespBody)
    (rest : List TransportEvent) (dec : String → Nat) (kv : Nat) :
    ((WorkloadIdentityFederationClient.getSecurityTokenFromServer fixtureCfg dec kv
        (TransportEvent.resp ⟨st, b⟩ :: rest)).attempts = 1 ∧
     (WorkloadIdentityFederationClient.getSecurityTokenFromServer fixtureCfg dec kv
        (TransportEvent.resp ⟨st, b⟩ :: rest)).result.isFail = true) ∧
    ((TokenExchangeWhileGen.getSecurityTokenFromServer fixtureCfg dec kv
        (TransportEvent.resp ⟨st, b⟩ :: rest)).attempts = 1 ∧
     (TokenExchangeWhileGen.getSecurityTokenFromServer fixtureCfg dec kv
        (TransportEvent.resp ⟨st, b⟩ :: rest)).result.isFail = true ∧
     (TokenExchangeWhileGen.getSecurityTokenFromServer fixtureCfg dec kv
        (TransportEvent.resp ⟨st, b⟩ :: rest)).delays = []) ∧
    ((TokenExchangeForGen.getSecurityTokenFromServer fixtureCfg dec kv
        (TransportEvent.resp ⟨st, b⟩ :: rest)).attempts = 1 ∧
     (TokenExchangeForGen.getSecurityTokenFromServer fixtureCfg dec kv
        (TransportEvent.resp ⟨st, b⟩ :: rest)).result.isFail = true ∧
     (TokenExchangeForGen.getSecurityTokenFromServer fixtureCfg dec kv
        (TransportEvent.resp ⟨st, b⟩ :: rest)).delays = []) ∧
    ((X509FederationClient.getSecurityTokenFromServer fixtureX509Cfg dec kv
        (TransportEvent.resp ⟨st, b⟩ :: rest)).attempts = 1 ∧
     (X509FederationClient.getSecurityTokenFromServer fixtureX509Cfg dec kv
        (TransportEvent.resp ⟨st, b⟩ :: rest)).result.isFail = true ∧
     (X509FederationClient.getSecurityTokenFromServer fixtureX509Cfg dec kv
        (TransportEvent.resp ⟨st, b⟩ :: rest)).delays = []) := by
  have h200 : ¬ st = 200 := by omega
  refine ⟨⟨?_, ?_⟩, ⟨?_, ?_, ?_⟩, ⟨?_, ?_, ?_⟩, ⟨?_, ?_, ?_⟩⟩ <;>
    simp [WorkloadIdentityFederationClient.getSecurityTokenFromServer,
      WorkloadIdentityFederationClient.getTokenAsync,
      WorkloadIdentityFederationClient.resolveSubject,
      TokenExchangeWhileGen.getSecurityTokenFromServer,
      TokenExchangeWhileGen.MAX_ATTEMPTS, TokenExchangeWhileGen.go,
      TokenExchangeForGen.getSecurityTokenFromServer,
      TokenExchangeForGen.MAX_ATTEMPTS, TokenExchangeForGen.go,
      TokenExchangeForGen.getTokenAsync,
      X509FederationClient.getSecurityTokenFromServer, X509FederationClient.go,
      X509FederationClient.getTokenAsync,
      fixtureCfg, fixtureX509Cfg, sendEvent, h200, h4, h5,
      FetchResult.isFail]

/-- Witness for C3 (amended) at the concrete status 401. -/
theorem claim3_amended_4xx_terminal_one_attempt_witness :
    (WorkloadIdentityFederationClient.getSecurityTokenFromServer fixtureCfg fixtureDec 1
        (TransportEvent.resp ⟨401, RespBody.json none none⟩ :: [respStatus 401])).attempts
      = 1 ∧
    (TokenExchangeWhileGen.getSecurityTokenFromServer fixtureCfg fixtureDec 1
        (TransportEvent.resp ⟨401, RespBody.json none none⟩ :: [respStatus 401])).attempts
      = 1 ∧
    (TokenExchangeForGen.getSecurityTokenFromServer fixtureCfg fixtureDec 1
        (TransportEvent.resp ⟨401, RespBody.json none none⟩ :: [respStatus 401])).attempts
      = 1 ∧
    (X509FederationClient.getSecurityTokenFromServer fixtureX509Cfg fixtureDec 1
        (TransportEvent.resp ⟨401, RespBody.json none none⟩ :: [respStatus 401])).attempts
      = 1 :=
  ⟨(claim3_amended_4xx_terminal_one_attempt 401 (by decide) (by decide)
      (RespBody.json none none) [respStatus 401] fixtureDec 1).1.1,
   (claim3_amended_4xx_terminal_one_attempt 401 (by decide) (by decide)
      (RespBody.json none none) [respStatus 401] fixtureDec 1).2.1.1,
   (claim3_amended_4xx_terminal_one_attempt 401 (by decide) (by decide)
      (RespBody.json none none) [respStatus 401] fixtureDec 1).2.2.1.1,
   (claim3_amended_4xx_terminal_one_attempt 401 (by decide) (by decide)
      (RespBody.json none none) [respStatus 401] fixtureDec 1).2.2.2.1⟩

theorem te2_go_retriable_step (dec : String → Nat) (kv : Nat) (remaining : Nat)
    (hr : 0 < remaining) (e : TransportEvent) (he : retriableEvt e = true)
    (rest : List TransportEvent) (lastErr : Option String) :
    TokenExchangeWhileGen.go dec kv (remaining + 1) (e :: rest) lastErr
      = TokenExchangeWhileGen.addRetry
          (TokenExchangeWhileGen.go dec kv remaining rest (some (te2EventMsg e))) := by
  rcases e with m | r
  · simp [TokenExchangeWhileGen.go, sendEvent, hr, te2EventMsg]
  · simp only [retriableEvt, decide_eq_true_eq] at he
    have h200 : ¬ r.status = 200 := by omega
    have h4xx : ¬ (400 ≤ r.status ∧ r.status < 500) := by omega
    simp [TokenExchangeWhileGen.go, sendEvent, hr, te2EventMsg, h200, h4xx]

theorem te2_go_retriable_last (dec : String → Nat) (kv : Nat)
    (e : TransportEvent) (he : retriableEvt e = true)
    (rest : List TransportEvent) (lastErr : Option String) :
    TokenExchangeWhileGen.go dec kv 1 (e :: rest) lastErr
      = ⟨FetchResult.fail (TokenExchangeWhileGen.finalError (some (te2EventMsg e))), 1, []⟩ := by
  rcases e with m | r
  · simp [TokenExchangeWhileGen.go, sendEvent, te2EventMsg]
  · simp only [retriableEvt, decide_eq_true_eq] at he
    have h200 : ¬ r.status = 200 := by omega
    have h4xx : ¬ (400 ≤ r.status ∧ r.status < 500) := by omega
    simp [TokenExchangeWhileGen.go, sendEvent, te2EventMsg, h200, h4xx]

theorem te2_retry_exhaust (dec : String → Nat) (kv : Nat)
    (e1 e2 e3 : TransportEvent) (h1 : retriableEvt e1 = true)
    (h2 : retriableEvt e2 = true) (h3 : retriableEvt e3 = true)
    (rest : List TransportEvent) :
    TokenExchangeWhileGen.getSecurityTokenFromServer fixtureCfg dec kv (e1 :: e2 :: e3 :: rest)
      = ⟨FetchResult.fail (TokenExchangeWhileGen.finalError (some (te2EventMsg e3))), 3,
         [1000, 1000]⟩ := by
  have s1 := te2_go_retriable_step dec kv 2 (by decide) e1 h1 (e2 :: e3 :: rest) none
  have s2 := te2_go_retriable_step dec kv 1 (by decide) e2 h2 (e3 :: rest)
      (some (te2EventMsg e1))
  have s3 := te2_go_retriable_last dec kv e3 h3 rest (some (te2EventMsg e2))
  simp [TokenExchangeWhileGen.getSecurityTokenFromServer, fixtureCfg,
    TokenExchangeWhileGen.MAX_ATTEMPTS]
  rw [show (3 : Nat) = 2 + 1 from rfl, s1, show (2 : Nat) = 1 + 1 from rfl, s2, s3]
  simp [TokenExchangeWhileGen.addRetry, TokenExchangeWhileGen.DELAY_MS]

theorem te3_go_retriable_step (dec : String → Nat) (kv : Nat) (remaining : Nat)
    (hr : 0 < remaining) (e : TransportEvent) (he : retriableEvt e = true)
    (rest : List TransportEvent) (lastErr : Option String) :
    TokenExchangeForGen.go fixtureCfg dec kv (remaining + 1) (e :: rest) lastErr
      = TokenExchangeForGen.addRetry 1
          (TokenExchangeForGen.go fixtureCfg dec kv remaining rest (some (te3EventMsg e))) := by
  rcases e with m | r
  · simp [TokenExchangeForGen.go, TokenExchangeForGen.getTokenAsync,
      WorkloadIdentityFederationClient.resolveSubject, fixtureCfg, sendEvent, hr, te3EventMsg]
  · simp only [retriableEvt, decide_eq_true_eq] at he
    have h4xx : ¬ (400 ≤ r.status ∧ r.status < 500) := by omega
    simp [TokenExchangeForGen.go, TokenExchangeForGen.getTokenAsync,
      WorkloadIdentityFederationClient.resolveSubject, fixtureCfg, sendEvent, hr,
      te3EventMsg, h4xx, he]

theorem te3_go_retriable_last (dec : String → Nat) (kv : Nat)
    (e : TransportEvent) (he : retriableEvt e = true)
    (rest : List TransportEvent) (lastErr : Option String) :
    TokenExchangeForGen.go fixtureCfg dec kv 1 (e :: rest) lastErr
      = ⟨FetchResult.fail (TokenExchangeForGen.finalError (some (te3EventMsg e))), 1, []⟩ := by
  rcases e with m | r
  · simp [TokenExchangeForGen.go, TokenExchangeForGen.getTokenAsync,
      WorkloadIdentityFederationClient.resolveSubject, fixtureCfg, sendEvent, te3EventMsg]
  · simp only [retriableEvt, decide_eq_true_eq] at he
    have h4xx : ¬ (400 ≤ r.status ∧ r.status < 500) := by omega
    simp [TokenExchangeForGen.go, TokenExchangeForGen.getTokenAsync,
      WorkloadIdentityFederationClient.resolveSubject, fixtureCfg, sendEvent,
      te3EventMsg, h4xx, he]

theorem te3_retry_exhaust (dec : String → Nat) (kv : Nat)
    (e1 e2 e3 : TransportEvent) (h1 : retriableEvt e1 = true)
    (h2 : retriableEvt e2 = true) (h3 : retriableEvt e3 = true)
    (rest : List TransportEvent) :
    TokenExchangeForGen.getSecurityTokenFromServer fixtureCfg dec kv (e1 :: e2 :: e3 :: rest)
      = ⟨FetchResult.fail (TokenExchangeForGen.finalError (some (te3EventMsg e3))), 3,
         [1000, 1000]⟩ := by
  have s1 := te3_go_retriable_step dec kv 2 (by decide) e1 h1 (e2 :: e3 :: rest) none
  have s2 := te3_go_retriable_step dec kv 1 (by decide) e2 h2 (e3 :: rest)
      (some (te3EventMsg e1))
  have s3 := te3_go_retriable_last dec kv e3 h3 rest (some (te3EventMsg e2))
  simp [TokenExchangeForGen.getSecurityTokenFromServer, TokenExchangeForGen.MAX_ATTEMPTS]
  rw [show (3 : Nat) = 2 + 1 from rfl, s1, show (2 : Nat) = 1 + 1 from rfl, s2, s3]
  simp [TokenExchangeForGen.addRetry, TokenExchangeForGen.DELAY_MS]

/-- C4 counterexample: the workload-identity variant performs no retries at
all; a 503 response (a retriable outcome per the claim) fails the cycle
terminally after exactly one transport attempt, not three. -/
theorem claim4_counterexample_wi_no_retry :
    (WorkloadIdentityFederationClient.getSecurityTokenFromServer fixtureCfg fixtureDec 1
        [respStatus 503, respStatus 503, respStatus 503]).attempts = 1 ∧
    (WorkloadIdentityFederationClient.getSecurityTokenFromServer fixtureCfg fixtureDec 1
        [respStatus 503, respStatus 503, respStatus 503]).result.isFail = true ∧
    ¬ (1 : Nat) = 3 := by
  refine ⟨by decide, by decide, by decide⟩

/-- C4 (amended): in the two loop generations of the token-exchange client, a
retriable outcome (transport-level error or HTTP status >= 500) is retried up
to 3 total attempts with a fixed 1-second inter-attempt delay, and on
exhaustion the cycle fails terminally, tagged shouldBeRetried = false; the
part_003 for-loop generation preserves the last observed error as the cause
field of the thrown error, while the part_002 generation preserves it only in
the message.  The workload-identity variant performs no retries (one attempt,
see the counterexample), the recursive generation retries without delay, and
the X509 client delegates delays to a jittered backoff strategy. -/
theorem claim4_amended_loop_retry_policy (dec : String → Nat) (kv : Nat)
    (e1 e2 e3 : TransportEvent) (h1 : retriableEvt e1 = true)
    (h2 : retriableEvt e2 = true) (h3 : retriableEvt e3 = true)
    (rest : List TransportEvent) :
    TokenExchangeWhileGen.getSecurityTokenFromServer fixtureCfg dec kv (e1 :: e2 :: e3 :: rest)
      = ⟨FetchResult.fail (TokenExchangeWhileGen.finalError (some (te2EventMsg e3))), 3,
         [1000, 1000]⟩ ∧
    (TokenExchangeWhileGen.finalError (some (te2EventMsg e3))).shouldBeRetried = some false ∧
    (TokenExchangeWhileGen.finalError (some (te2EventMsg e3))).message = te2EventMsg e3 ∧
    TokenExchangeForGen.getSecurityTokenFromServer fixtureCfg dec kv (e1 :: e2 :: e3 :: rest)
      = ⟨FetchResult.fail (TokenExchangeForGen.finalError (some (te3EventMsg e3))), 3,
         [1000, 1000]⟩ ∧
    (TokenExchangeForGen.finalError (some (te3EventMsg e3))).shouldBeRetried = some false ∧
    (TokenExchangeForGen.finalError (some (te3EventMsg e3))).cause = some (te3EventMsg e3) :=
  ⟨te2_retry_exhaust dec kv e1 e2 e3 h1 h2 h3 rest, rfl, rfl,
   te3_retry_exhaust dec kv e1 e2 e3 h1 h2 h3 rest, rfl, rfl⟩

/-- Witness for C4 (amended): three 503 responses exhaust both loop
generations in 3 attempts with two 1-second delays. -/
theorem claim4_amended_loop_retry_policy_witness :
    TokenExchangeWhileGen.getSecurityTokenFromServer fixtureCfg fixtureDec 1
        [respStatus 503, respStatus 503, respStatus 503]
      = ⟨FetchResult.fail
           (TokenExchangeWhileGen.finalError (some (te2EventMsg (respStatus 503)))), 3,
         [1000, 1000]⟩ ∧
    TokenExchangeForGen.getSecurityTokenFromServer fixtureCfg fixtureDec 1
        [respStatus 503, respStatus 503, respStatus 503]
      = ⟨FetchResult.fail
           (TokenExchangeForGen.finalError (some (te3EventMsg (respStatus 503)))), 3,
         [1000, 1000]⟩ :=
  ⟨(claim4_amended_loop_retry_policy fixtureDec 1 (respStatus 503) (respStatus 503)
      (respStatus 503) (by decide) (by decide) (by decide) []).1,
   (claim4_amended_loop_retry_policy fixtureDec 1 (respStatus 503) (respStatus 503)
      (respStatus 503) (by decide) (by decide) (by decide) []).2.2.2.1⟩

/-- C5 counterexample: in the part_002 generation an HTTP 200 response whose
body fails to parse is treated as possibly transient and retried (lines
146-155): fed three unparsable 200 responses the cycle performs 3 transport
attempts with two delays, so a malformed success response IS followed by
further transport attempts there (the part_003 for-loop generation does the
same, line 308). -/
theorem claim5_counterexample_te2_retries_unparsable_200 :
    (TokenExchangeWhileGen.getSecurityTokenFromServer fixtureCfg fixtureDec 1
        [respUnparsable, respUnparsable, respUnparsable]).attempts = 3 ∧
    (TokenExchangeWhileGen.getSecurityTokenFromServer fixtureCfg fixtureDec 1
        [respUnparsable, respUnparsable, respUnparsable]).delays = [1000, 1000] ∧
    (TokenExchangeForGen.getSecurityTokenFromServer fixtureCfg fixtureDec 1
        [respUnparsable, respUnparsable, respUnparsable]).attempts = 3 ∧
    ¬ (3 : Nat) = 1 := by
  refine ⟨by decide, by decide, by decide, by decide⟩

/-- C5 (amended): an HTTP 200 response that parses but lacks a non-empty
string token field (field absent, or the empty string; access_token for the
recursive generation) fails the refresh cycle terminally with exactly one
transport attempt and no retry in all four bearer-credential variants; a 200
body that fails to parse is terminal without retry only in the
workload-identity and recursive-retry variants, while the two loop
generations retry it (see the counterexample). -/
theorem claim5_amended_malformed_200_terminal (dec : String → Nat) (kv : Nat)
    (rest : List TransportEvent) :
    ((WorkloadIdentityFederationClient.getSecurityTokenFromServer fixtureCfg dec kv
        (TransportEvent.resp ⟨200, RespBody.json none none⟩ :: rest)).attempts = 1 ∧
     (WorkloadIdentityFederationClient.getSecurityTokenFromServer fixtureCfg dec kv
        (TransportEvent.resp ⟨200, RespBody.json none none⟩ :: rest)).result.isFail = true ∧
     (WorkloadIdentityFederationClient.getSecurityTokenFromServer fixtureCfg dec kv
        (TransportEvent.resp ⟨200, RespBody.json (some ("")) (some (""))⟩ :: rest)).attempts
        = 1 ∧
     (WorkloadIdentityFederationClient.getSecurityTokenFromServer fixtureCfg dec kv
        (TransportEvent.resp ⟨200, RespBody.json (some ("")) (some (""))⟩ :: rest)).result.isFail
        = true) ∧
    ((TokenExchangeWhileGen.getSecurityTokenFromServer fixtureCfg dec kv
        (TransportEvent.resp ⟨200, RespBody.json none none⟩ :: rest)).attempts = 1 ∧
     (TokenExchangeWhileGen.getSecurityTokenFromServer fixtureCfg dec kv
        (TransportEvent.resp ⟨200, RespBody.json none none⟩ :: rest)).result.isFail = true ∧
     (TokenExchangeWhileGen.getSecurityTokenFromServer fixtureCfg dec kv
        (TransportEvent.resp ⟨200, RespBody.json (some ("")) (some (""))⟩ :: rest)).attempts
        = 1 ∧
     (TokenExchangeWhileGen.getSecurityTokenFromServer fixtureCfg dec kv
        (TransportEvent.resp ⟨200, RespBody.json (some ("")) (some (""))⟩ :: rest)).result.isFail
        = true ∧
     (TokenExchangeWhileGen.getSecurityTokenFromServer fixtureCfg dec kv
        (TransportEvent.resp ⟨200, RespBody.json (some ("")) (some (""))⟩ :: rest)).delays
        = []) ∧
    ((TokenExchangeForGen.getSecurityTokenFromServer fixtureCfg dec kv
        (TransportEvent.resp ⟨200, RespBody.json none none⟩ :: rest)).attempts = 1 ∧
     (TokenExchangeForGen.getSecurityTokenFromServer fixtureCfg dec kv
        (TransportEvent.resp ⟨200, RespBody.json none none⟩ :: rest)).result.isFail = true ∧
     (TokenExchangeForGen.getSecurityTokenFromServer fixtureCfg dec kv
        (TransportEvent.resp ⟨200, RespBody.json (some ("")) (some (""))⟩ :: rest)).attempts
        = 1 ∧
     (TokenExchangeForGen.getSecurityTokenFromServer fixtureCfg dec kv
        (TransportEvent.resp ⟨200, RespBody.json (some ("")) (some (""))⟩ :: rest)).result.isFail
        = true ∧
     (TokenExchangeForGen.getSecurityTokenFromServer fixtureCfg dec kv
        (TransportEvent.resp ⟨200, RespBody.json (some ("")) (some (""))⟩ :: rest)).delays
        = []) ∧
    ((TokenExchangeRecGen.getSecurityTokenFromServer fixtureCfg dec kv 0
        (TransportEvent.resp ⟨200, RespBody.json none none⟩ :: rest)).1.attempts = 1 ∧
     (TokenExchangeRecGen.getSecurityTokenFromServer fixtureCfg dec kv 0
        (TransportEvent.resp ⟨200, RespBody.json none none⟩ :: rest)).1.result.isFail = true ∧
     (TokenExchangeRecGen.getSecurityTokenFromServer fixtureCfg dec kv 0
        (TransportEvent.resp ⟨200, RespBody.json (some ("")) (some (""))⟩ :: rest)).1.attempts
        = 1 ∧
     (TokenExchangeRecGen.getSecurityTokenFromServer fixtureCfg dec kv 0
        (TransportEvent.resp ⟨200, RespBody.json (some ("")) (some (""))⟩ :: rest)).1.result.isFail
        = true) ∧
    ((WorkloadIdentityFederationClient.getSecurityTokenFromServer fixtureCfg dec kv
        (respUnparsable :: rest)).attempts = 1 ∧
     (WorkloadIdentityFederationClient.getSecurityTokenFromServer fixtureCfg dec kv
        (respUnparsable :: rest)).result.isFail = true ∧
     (TokenExchangeRecGen.getSecurityTokenFromServer fixtureCfg dec kv 0
        (respUnparsable :: rest)).1.attempts = 1 ∧
     (TokenExchangeRecGen.getSecurityTokenFromServer fixtureCfg dec kv 0
        (respUnparsable :: rest)).1.result.isFail = true) := by
  refine ⟨⟨?_, ?_, ?_, ?_⟩, ⟨?_, ?_, ?_, ?_, ?_⟩, ⟨?_, ?_, ?_, ?_, ?_⟩,
    ⟨?_, ?_, ?_, ?_⟩, ⟨?_, ?_, ?_, ?_⟩⟩ <;>
    simp [WorkloadIdentityFederationClient.getSecurityTokenFromServer,
      WorkloadIdentityFederationClient.getTokenAsync,
      WorkloadIdentityFederationClient.resolveSubject,
      TokenExchangeWhileGen.getSecurityTokenFromServer,
      TokenExchangeWhileGen.MAX_ATTEMPTS, TokenExchangeWhileGen.go,
      TokenExchangeForGen.getSecurityTokenFromServer,
      TokenExchangeForGen.MAX_ATTEMPTS, TokenExchangeForGen.go,
      TokenExchangeForGen.getTokenAsync,
      TokenExchangeRecGen.getSecurityTokenFromServer, TokenExchangeRecGen.go,
      fixtureCfg, sendEvent, respUnparsable, FetchResult.isFail]

theorem wi_server_fail_tagged (cfg : TokenExchangeConfig) (dec : String → Nat) (kv : Nat)
    (events : List TransportEvent) (e : ErrInfo)
    (h : (WorkloadIdentityFederationClient.getSecurityTokenFromServer cfg dec kv events).result
          = FetchResult.fail e) :
    e.shouldBeRetried = some false ∧
    ∃ m, e.cause = some m ∧ e.message = ("Failed to get security token. ") ++ m := by
  unfold WorkloadIdentityFederationClient.getSecurityTokenFromServer at h
  repeat' split at h
  all_goals
    simp_all [WorkloadIdentityFederationClient.wrapFinal]
  all_goals (cases h; exact ⟨rfl, _, rfl, rfl⟩)

theorem te2_go_fail_tagged (dec : String → Nat) (kv : Nat) :
    ∀ (remaining : Nat) (events : List TransportEvent) (lastErr : Option String) (e : ErrInfo),
    (TokenExchangeWhileGen.go dec kv remaining events lastErr).result = FetchResult.fail e →
    e.shouldBeRetried = some false := by
  intro remaining
  induction remaining with
  | zero =>
    intro events lastErr e h
    simp [TokenExchangeWhileGen.go] at h
    cases h
    rfl
  | succ n ih =>
    intro events lastErr e h
    unfold TokenExchangeWhileGen.go at h
    repeat' split at h
    all_goals
      first
      | (simp [TokenExchangeWhileGen.addRetry] at h; exact ih _ _ _ h)
      | (simp_all [TokenExchangeWhileGen.finalError]; cases h; rfl)
      | simp_all

theorem te3_go_fail_tagged (cfg : TokenExchangeConfig) (dec : String → Nat) (kv : Nat) :
    ∀ (remaining : Nat) (events : List TransportEvent) (lastErr : Option String) (e : ErrInfo),
    (TokenExchangeForGen.go cfg dec kv remaining events lastErr).result = FetchResult.fail e →
    e.shouldBeRetried = some false := by
  intro remaining
  induction remaining with
  | zero =>
    intro events lastErr e h
    simp [TokenExchangeForGen.go] at h
    cases h
    rfl
  | succ n ih =>
    intro events lastErr e h
    unfold TokenExchangeForGen.go at h
    repeat' split at h
    all_goals
      first
      | (simp [TokenExchangeForGen.addRetry] at h; exact ih _ _ _ h)
      | (simp_all [TokenExchangeForGen.finalError]; cases h; rfl)
      | simp_all

theorem x509_fail_tagged_except_parse (cfg : X509FederationClient.Config) (dec : String → Nat)
    (kv : Nat) (events : List TransportEvent) (e : ErrInfo)
    (h : (X509FederationClient.getSecurityTokenFromServer cfg dec kv events).result
          = FetchResult.fail e) :
    e.shouldBeRetried = some false ∨ e = plainErr JSON_PARSE_ERROR := by
  simp only [X509FederationClient.getSecurityTokenFromServer] at h
  rcases hx : (X509FederationClient.go cfg
      (X509FederationClient.DEFAULT_AUTH_MAX_RETRY_COUNT + 1) 0 events none).1 with _ | r
  · rw [hx] at h
    simp at h
    cases h
    exact Or.inl rfl
  · rw [hx] at h
    simp at h
    split at h
    · split at h
      · simp at h
        cases h
        exact Or.inr rfl
      · simp at h
    · simp at h
      cases h
      exact Or.inl rfl

/-- C6 counterexample: the recursive-retry generation wraps its terminal
errors in plain Error objects and never attaches a shouldBeRetried flag; its
exhaustion error after four 401 responses carries no caller-visible
non-retriable flag. -/
theorem claim6_counterexample_rec_untagged :
    (TokenExchangeRecGen.getSecurityTokenFromServer fixtureCfg fixtureDec 1 0
        [respStatus 401, respStatus 401, respStatus 401, respStatus 401]).1.result.isFail
      = true ∧
    (TokenExchangeRecGen.getSecurityTokenFromServer fixtureCfg fixtureDec 1 0
        [respStatus 401, respStatus 401, respStatus 401, respStatus 401]).1.result.retryFlag
      = none ∧
    ¬ (none : Option Bool) = some false := by
  refine ⟨by decide, by decide, by decide⟩

/-- C6 (amended): every terminal error of a refresh cycle carries
shouldBeRetried = false in the workload-identity variant (any configuration)
and the part_003 for-loop generation (any configuration); in the part_002
generation every error raised from its attempt loop is tagged, but the missing
key-material errors thrown before the loop propagate untagged; in the X509
client every terminal error is tagged except a 200 response whose body fails
to parse, which propagates as a raw untagged error; the recursive-retry
generation tags nothing (see the counterexample). -/
theorem claim6_amended_terminal_errors_tagged :
    (∀ (cfg : TokenExchangeConfig) (dec : String → Nat) (kv : Nat)
        (events : List TransportEvent) (e : ErrInfo),
      (WorkloadIdentityFederationClient.getSecurityTokenFromServer cfg dec kv events).result
          = FetchResult.fail e →
      e.shouldBeRetried = some false) ∧
    (∀ (cfg : TokenExchangeConfig) (dec : String → Nat) (kv : Nat)
        (events : List TransportEvent) (e : ErrInfo),
      cfg.keyPairPresent = true → ¬ cfg.publicKey.getD ("") = "" →
      (TokenExchangeWhileGen.getSecurityTokenFromServer cfg dec kv events).result
          = FetchResult.fail e →
      e.shouldBeRetried = some false) ∧
    (∀ (cfg : TokenExchangeConfig) (dec : String → Nat) (kv : Nat)
        (events : List TransportEvent) (e : ErrInfo),
      (TokenExchangeForGen.getSecurityTokenFromServer cfg dec kv events).result
          = FetchResult.fail e →
      e.shouldBeRetried = some false) ∧
    (∀ (cfg : X509FederationClient.Config) (dec : String → Nat) (kv : Nat)
        (events : List TransportEvent) (e : ErrInfo),
      (X509FederationClient.getSecurityTokenFromServer cfg dec kv events).result
          = FetchResult.fail e →
      e.shouldBeRetried = some false ∨ e = plainErr JSON_PARSE_ERROR) ∧
    (TokenExchangeWhileGen.getSecurityTokenFromServer cfgNoKeyPair fixtureDec 1 []).result
      = FetchResult.fail (plainErr ("keyPair for session was not provided")) := by
  refine ⟨?_, ?_, ?_, ?_, by decide⟩
  · intro cfg dec kv events e h
    exact (wi_server_fail_tagged cfg dec kv events e h).1
  · intro cfg dec kv events e hkp hpk h
    unfold TokenExchangeWhileGen.getSecurityTokenFromServer at h
    rw [if_neg (by simp [hkp]), if_neg hpk] at h
    exact te2_go_fail_tagged dec kv _ _ _ _ h
  · intro cfg dec kv events e h
    exact te3_go_fail_tagged cfg dec kv _ _ _ _ h
  · intro cfg dec kv events e h
    exact x509_fail_tagged_except_parse cfg dec kv events e h

/-- Witness for C6 (amended) at concrete failing cycles. -/
theorem claim6_amended_terminal_errors_tagged_witness :
    (WorkloadIdentityFederationClient.getSecurityTokenFromServer fixtureCfg fixtureDec 1
        [respStatus 503]).result.retryFlag = some false ∧
    (TokenExchangeWhileGen.getSecurityTokenFromServer fixtureCfg fixtureDec 1
        [respStatus 401]).result.retryFlag = some false ∧
    (TokenExchangeForGen.getSecurityTokenFromServer fixtureCfg fixtureDec 1
        [respStatus 401]).result.retryFlag = some false ∧
    ((⟨X509FederationClient.statusMsg 401, some false, some (-1), none⟩ :
        ErrInfo).shouldBeRetried = some false ∨
      (⟨X509FederationClient.statusMsg 401, some false, some (-1), none⟩ : ErrInfo)
        = plainErr JSON_PARSE_ERROR) := by
  have h1 := claim6_amended_terminal_errors_tagged.1 fixtureCfg fixtureDec 1 [respStatus 503]
      (WorkloadIdentityFederationClient.wrapFinal
        (AUTH_TOKEN_GENERIC_ERROR ++ (". Response failed with status: ") ++ toString 503))
      (by decide)
  have h2 := claim6_amended_terminal_errors_tagged.2.1 fixtureCfg fixtureDec 1 [respStatus 401]
      (TokenExchangeWhileGen.finalError (some (TokenExchangeWhileGen.statusMsg 401)))
      (by decide) (by decide) (by decide)
  have h3 := claim6_amended_terminal_errors_tagged.2.2.1 fixtureCfg fixtureDec 1 [respStatus 401]
      (TokenExchangeForGen.finalError (some (TokenExchangeForGen.statusMsg 401)))
      (by decide)
  have h4 := claim6_amended_terminal_errors_tagged.2.2.2.1 fixtureX509Cfg fixtureDec 1
      [respStatus 401]
      ⟨X509FederationClient.statusMsg 401, some false, some (-1), none⟩ (by decide)
  refine ⟨?_, ?_, ?_, ?_⟩
  · have : (WorkloadIdentityFederationClient.getSecurityTokenFromServer fixtureCfg fixtureDec 1
        [respStatus 503]).result
      = FetchResult.fail
          (WorkloadIdentityFederationClient.wrapFinal
            (AUTH_TOKEN_GENERIC_ERROR ++ (". Response failed with status: ") ++ toString 503)) :=
      by decide
    rw [this, FetchResult.retryFlag]
    exact h1
  · have : (TokenExchangeWhileGen.getSecurityTokenFromServer fixtureCfg fixtureDec 1
        [respStatus 401]).result
      = FetchResult.fail
          (TokenExchangeWhileGen.finalError (some (TokenExchangeWhileGen.statusMsg 401))) :=
      by decide
    rw [this, FetchResult.retryFlag]
    exact h2
  · have : (TokenExchangeForGen.getSecurityTokenFromServer fixtureCfg fixtureDec 1
        [respStatus 401]).result
      = FetchResult.fail
          (TokenExchangeForGen.finalError (some (TokenExchangeForGen.statusMsg 401))) :=
      by decide
    rw [this, FetchResult.retryFlag]
    exact h3
  · exact h4

/-- C7 counterexample: when the leaf certificate supplier has no refresh
method, the tenancy check at X509-federation-client.ts lines 138-148 is
skipped entirely: with purpose DEFAULT and a leaf certificate whose tenancy id
(tenB) differs from the configured tenancy id (tenA), the refresh cycle does
not fail before the network call; it performs a transport attempt and
succeeds. -/
theorem claim7_counterexample_static_supplier_skips_check :
    x509StaticCfg.purpose = ("DEFAULT") ∧
    ¬ x509StaticCfg.tenancyId = x509MismatchState.leafCertTenancy ∧
    (X509FederationClient.refreshAndGetSecurityToken 0 0 x509StaticCfg fixtureDec
        x509MismatchState [resp200 ("tok")]).result = Except.ok ("tok") ∧
    (X509FederationClient.refreshAndGetSecurityToken 0 0 x509StaticCfg fixtureDec
        x509MismatchState [resp200 ("tok")]).attempts = 1 := by
  refine ⟨rfl, by decide, rfl, rfl⟩

/-- C7 (amended): for the certificate-exchange variant with purpose DEFAULT,
whenever the leaf certificate supplier is refreshable and the refreshed
certificate carries a tenancy id different from the configured one, the
refresh cycle fails with the fatal configuration error before any network
call (zero transport attempts); when the supplier has no refresh method the
check is skipped (see the counterexample). -/
theorem claim7_amended_tenancy_check_on_refreshable_supplier
    (now skew : Nat) (cfg : X509FederationClient.Config) (dec : String → Nat)
    (s : X509FederationClient.State) (events : List TransportEvent) (newTen : String)
    (href : cfg.leafRefresh = some (Except.ok newTen))
    (hpur : cfg.purpose = ("DEFAULT"))
    (hmis : ¬ cfg.tenancyId = newTen) :
    ((X509FederationClient.refreshAndGetSecurityToken now skew cfg dec s events).result
       = Except.error (plainErr ("The tenancy id should never be changed in cert file!")) ∧
     (X509FederationClient.refreshAndGetSecurityToken now skew cfg dec s events).attempts
       = 0) ∧
    (s.adapter.isValid now skew = false →
     (X509FederationClient.getSecurityToken now skew cfg dec s events).result
       = Except.error (plainErr ("The tenancy id should never be changed in cert file!")) ∧
     (X509FederationClient.getSecurityToken now skew cfg dec s events).attempts = 0) := by
  constructor
  · constructor <;>
      simp [X509FederationClient.refreshAndGetSecurityToken,
        X509FederationClient.refreshInner, href, hpur, hmis]
  · intro hv
    constructor <;>
      simp [X509FederationClient.getSecurityToken,
        X509FederationClient.refreshInner, href, hpur, hmis, hv]

/-- Witness for C7 (amended): a refreshable supplier rotated to tenancy tenB
under a client configured for tenA fails the cycle before any transport
attempt. -/
theorem claim7_amended_tenancy_check_on_refreshable_supplier_witness :
    (X509FederationClient.refreshAndGetSecurityToken 0 0 x509RotatedCfg fixtureDec
        x509InitState [resp200 ("tok")]).result
      = Except.error (plainErr ("The tenancy id should never be changed in cert file!")) ∧
    (X509FederationClient.refreshAndGetSecurityToken 0 0 x509RotatedCfg fixtureDec
        x509InitState [resp200 ("tok")]).attempts = 0 :=
  (claim7_amended_tenancy_check_on_refreshable_supplier 0 0 x509RotatedCfg fixtureDec
    x509InitState [resp200 ("tok")] ("tenB") rfl rfl (by decide)).1

/-- C8 counterexample: the workload-identity variant writes the
requested_token_type form field as urn:oci-token-type:oci-upst
(workload-identity-federation-client.ts line 207), which is not the claimed
value urn:oci:token-type:oci-upst. -/
theorem claim8_counterexample_wi_requested_token_type :
    fieldVal (WorkloadIdentityFederationClient.buildRequest ("e") ("c") ("p") ("s"))
        ("requested_token_type") = some ("urn:oci-token-type:oci-upst") ∧
    ¬ (("urn:oci-token-type:oci-upst") : String) = ("urn:oci:token-type:oci-upst") := by
  refine ⟨rfl, by decide⟩

/-- C8 (amended): the part_002 and part_003 for-loop generations build a
form-encoded body with exactly the five claimed fields
(requested_token_type = urn:oci:token-type:oci-upst, public_key the sanitized
session public key, subject_token the resolved subject credential) and a Basic
Authorization header from the base64 client credentials; the workload-identity
variant builds the same form body except that its requested_token_type value
is urn:oci-token-type:oci-upst; the recursive generation sends the five fields
JSON-encoded with the public key unsanitized. -/
theorem claim8_amended_request_fields (endpoint cred pub subj : String) :
    ((TokenExchangeWhileGen.buildRequest endpoint cred pub subj).encoding
        = BodyEncoding.formUrlEncoded ∧
     (TokenExchangeWhileGen.buildRequest endpoint cred pub subj).bodyFields.length = 5 ∧
     fieldVal (TokenExchangeWhileGen.buildRequest endpoint cred pub subj) ("grant_type")
        = some ("urn:ietf:params:oauth:grant-type:token-exchange") ∧
     fieldVal (TokenExchangeWhileGen.buildRequest endpoint cred pub subj)
        ("requested_token_type") = some ("urn:oci:token-type:oci-upst") ∧
     fieldVal (TokenExchangeWhileGen.buildRequest endpoint cred pub subj) ("public_key")
        = some (sanitizeCertificateString pub) ∧
     fieldVal (TokenExchangeWhileGen.buildRequest endpoint cred pub subj) ("subject_token")
        = some subj ∧
     fieldVal (TokenExchangeWhileGen.buildRequest endpoint cred pub subj)
        ("subject_token_type") = some ("jwt") ∧
     (TokenExchangeWhileGen.buildRequest endpoint cred pub subj).headers
        = [ (("Content-Type"), ("application/x-www-form-urlencoded")),
            (("Authorization"), ("Basic ") ++ cred) ] ∧
     (TokenExchangeWhileGen.buildRequest endpoint cred pub subj).method = ("POST")) ∧
    TokenExchangeForGen.buildRequest endpoint cred pub subj
      = TokenExchangeWhileGen.buildRequest endpoint cred pub subj ∧
    ((WorkloadIdentityFederationClient.buildRequest endpoint cred pub subj).encoding
        = BodyEncoding.formUrlEncoded ∧
     (WorkloadIdentityFederationClient.buildRequest endpoint cred pub subj).bodyFields.length
        = 5 ∧
     fieldVal (WorkloadIdentityFederationClient.buildRequest endpoint cred pub subj)
        ("grant_type") = some ("urn:ietf:params:oauth:grant-type:token-exchange") ∧
     fieldVal (WorkloadIdentityFederationClient.buildRequest endpoint cred pub subj)
        ("requested_token_type") = some ("urn:oci-token-type:oci-upst") ∧
     fieldVal (WorkloadIdentityFederationClient.buildRequest endpoint cred pub subj)
        ("public_key") = some (sanitizeCertificateString pub) ∧
     fieldVal (WorkloadIdentityFederationClient.buildRequest endpoint cred pub subj)
        ("subject_token") = some subj ∧
     fieldVal (WorkloadIdentityFederationClient.buildRequest endpoint cred pub subj)
        ("subject_token_type") = some ("jwt") ∧
     (WorkloadIdentityFederationClient.buildRequest endpoint cred pub subj).headers
        = [ (("Content-Type"), ("application/x-www-form-urlencoded")),
            (("Authorization"), ("Basic ") ++ cred) ]) ∧
    ((TokenExchangeRecGen.buildRequest endpoint cred pub subj).encoding
        = BodyEncoding.jsonString ∧
     fieldVal (TokenExchangeRecGen.buildRequest endpoint cred pub subj) ("public_key")
        = some pub ∧
     fieldVal (TokenExchangeRecGen.buildRequest endpoint cred pub subj)
        ("requested_token_type") = some ("urn:oci:token-type:oci-upst") ∧
     (TokenExchangeRecGen.buildRequest endpoint cred pub subj).headers
        = [ (("Content-Type"), ("application/x-www-form-urlencoded")),
            (("Authorization"), ("Basic ") ++ cred) ]) :=
  ⟨⟨rfl, rfl, rfl, rfl, rfl, rfl, rfl, rfl, rfl⟩, rfl,
   ⟨rfl, rfl, rfl, rfl, rfl, rfl, rfl, rfl⟩, ⟨rfl, rfl, rfl, rfl⟩⟩

theorem te2_go_ok_kv (dec : String → Nat) (kv : Nat) :
    ∀ (remaining : Nat) (events : List TransportEvent) (lastErr : Option String)
      (a : SecurityTokenAdapter),
    (TokenExchangeWhileGen.go dec kv remaining events lastErr).result = FetchResult.ok a →
    a.keyVersion = kv := by
  intro remaining
  induction remaining with
  | zero => intro events lastErr a h; simp [TokenExchangeWhileGen.go] at h
  | succ n ih =>
    intro events lastErr a h
    unfold TokenExchangeWhileGen.go at h
    repeat' split at h
    all_goals
      first
      | (simp [TokenExchangeWhileGen.addRetry] at h; exact ih _ _ _ h)
      | (simp_all; cases h; rfl)
      | simp_all

theorem te2_server_ok_kv (cfg : TokenExchangeConfig) (dec : String → Nat) (kv : Nat)
    (events : List TransportEvent) (a : SecurityTokenAdapter)
    (h : (TokenExchangeWhileGen.getSecurityTokenFromServer cfg dec kv events).result
          = FetchResult.ok a) :
    a.keyVersion = kv := by
  unfold TokenExchangeWhileGen.getSecurityTokenFromServer at h
  repeat' split at h
  · simp at h
  · simp at h
  · exact te2_go_ok_kv dec kv _ _ _ _ h

theorem te3_go_ok_kv (cfg : TokenExchangeConfig) (dec : String → Nat) (kv : Nat) :
    ∀ (remaining : Nat) (events : List TransportEvent) (lastErr : Option String)
      (a : SecurityTokenAdapter),
    (TokenExchangeForGen.go cfg dec kv remaining events lastErr).result = FetchResult.ok a →
    a.keyVersion = kv := by
  intro remaining
  induction remaining with
  | zero => intro events lastErr a h; simp [TokenExchangeForGen.go] at h
  | succ n ih =>
    intro events lastErr a h
    unfold TokenExchangeForGen.go at h
    repeat' split at h
    all_goals
      first
      | (simp [TokenExchangeForGen.addRetry] at h; exact ih _ _ _ h)
      | (simp_all; cases h; rfl)
      | simp_all

theorem rec_go_ok_kv (dec : String → Nat) (kv : Nat) :
    ∀ (events : List TransportEvent) (retryCount : Nat) (a : SecurityTokenAdapter),
    (TokenExchangeRecGen.go dec kv retryCount events).1.result = FetchResult.ok a →
    a.keyVersion = kv := by
  intro events
  induction events with
  | nil => intro rc a h; simp [TokenExchangeRecGen.go] at h
  | cons e rest ih =>
    intro rc a h
    rcases e with m | r
    · simp [TokenExchangeRecGen.go] at h
    · by_cases hs : r.status = 200
      · rw [TokenExchangeRecGen.go] at h
        simp [hs] at h
        rcases hb : r.body with _ | ⟨tok, acc⟩ <;> rw [hb] at h
        · simp at h
        · rcases acc with _ | tstr
          · simp at h
          · by_cases ht : tstr = ""
            · simp [ht] at h
            · simp [ht] at h
              cases h
              rfl
      · rw [TokenExchangeRecGen.go] at h
        simp [hs] at h
        by_cases hr3 : rc < 3
        · simp [hr3] at h
          rcases hin : (TokenExchangeRecGen.go dec kv (rc + 1) rest).1.result with b | e2
          · rw [hin] at h
            simp [TokenExchangeRecGen.wrapFail] at h
            cases h
            exact ih (rc + 1) _ hin
          · rw [hin] at h
            simp [TokenExchangeRecGen.wrapFail] at h
        · simp [hr3] at h

theorem wi_server_ok_kv (cfg : TokenExchangeConfig) (dec : String → Nat) (kv : Nat)
    (events : List TransportEvent) (a : SecurityTokenAdapter)
    (h : (WorkloadIdentityFederationClient.getSecurityTokenFromServer cfg dec kv events).result
          = FetchResult.ok a) :
    a.keyVersion = kv := by
  unfold WorkloadIdentityFederationClient.getSecurityTokenFromServer at h
  repeat' split at h
  all_goals
    first
    | (simp_all; cases h; rfl)
    | simp_all

theorem x509_server_ok_kv (cfg : X509FederationClient.Config) (dec : String → Nat) (kv : Nat)
    (events : List TransportEvent) (a : SecurityTokenAdapter)
    (h : (X509FederationClient.getSecurityTokenFromServer cfg dec kv events).result
          = FetchResult.ok a) :
    a.keyVersion = kv := by
  simp only [X509FederationClient.getSecurityTokenFromServer] at h
  rcases hx : (X509FederationClient.go cfg
      (X509FederationClient.DEFAULT_AUTH_MAX_RETRY_COUNT + 1) 0 events none).1 with _ | r
  · rw [hx] at h
    simp at h
  · rw [hx] at h
    simp at h
    split at h
    · split at h
      · simp at h
      · simp at h
        cases h
        rfl
    · simp at h

theorem wi_refresh_ok_paired (now skew : Nat) (cfg : TokenExchangeConfig)
    (dec : String → Nat) (s : WorkloadIdentityFederationClient.State)
    (events : List TransportEvent) (t : String)
    (h : (WorkloadIdentityFederationClient.refreshAndGetSecurityToken
            now skew cfg dec s events).result = Except.ok t) :
    (WorkloadIdentityFederationClient.refreshAndGetSecurityToken
        now skew cfg dec s events).state.adapter.keyVersion
      = (WorkloadIdentityFederationClient.refreshAndGetSecurityToken
        now skew cfg dec s events).state.keyVersion := by
  simp only [WorkloadIdentityFederationClient.refreshAndGetSecurityToken,
    WorkloadIdentityFederationClient.refreshInnerSeq,
    WorkloadIdentityFederationClient.innerEnter] at h ⊢
  rcases hp : s.refreshPromise with _ | id
  case some =>
    rw [hp] at h
    simp at h
  case none =>
    rw [hp] at h
    simp at h ⊢
    rcases hx : (WorkloadIdentityFederationClient.getSecurityTokenFromServer cfg dec
        (s.keyVersion + 1) events).result with b | e2
    · simp [WorkloadIdentityFederationClient.cycleComplete]
      exact wi_server_ok_kv cfg dec _ events b hx
    · rw [hx] at h
      simp at h

theorem te2_refresh_ok_paired (now skew : Nat) (cfg : TokenExchangeConfig)
    (dec : String → Nat) (s : TokenExchangeWhileGen.State) (events : List TransportEvent)
    (t : String)
    (h : (TokenExchangeWhileGen.refreshAndGetSecurityToken now skew cfg dec s events).result
          = Except.ok t) :
    (TokenExchangeWhileGen.refreshAndGetSecurityToken
        now skew cfg dec s events).state.adapter.keyVersion
      = (TokenExchangeWhileGen.refreshAndGetSecurityToken
        now skew cfg dec s events).state.keyVersion := by
  simp only [TokenExchangeWhileGen.refreshAndGetSecurityToken,
    TokenExchangeWhileGen.refreshInner] at h ⊢
  rcases hx : (TokenExchangeWhileGen.getSecurityTokenFromServer cfg dec (s.keyVersion + 1)
      events).result with a | e
  · simp [hx]
    exact te2_server_ok_kv cfg dec _ events a hx
  · simp [hx] at h

theorem rec_refresh_ok_paired (now skew : Nat) (cfg : TokenExchangeConfig)
    (dec : String → Nat) (s : TokenExchangeRecGen.State) (events : List TransportEvent)
    (t : String)
    (h : (TokenExchangeRecGen.refreshAndGetSecurityToken now skew cfg dec s events).result
          = Except.ok t) :
    (TokenExchangeRecGen.refreshAndGetSecurityToken
        now skew cfg dec s events).state.adapter.keyVersion
      = (TokenExchangeRecGen.refreshAndGetSecurityToken
        now skew cfg dec s events).state.keyVersion := by
  simp only [TokenExchangeRecGen.refreshAndGetSecurityToken,
    TokenExchangeRecGen.refreshInner, TokenExchangeRecGen.getSecurityTokenFromServer] at h ⊢
  by_cases hkp : cfg.keyPairPresent = false
  · simp [hkp] at h
  · by_cases hpk : cfg.publicKey.getD ("") = ""
    · simp [hkp, hpk] at h
    · simp [hkp, hpk] at h ⊢
      rcases hx : (TokenExchangeRecGen.go dec (s.keyVersion + 1) s.retryCount events).1.result
        with a | e
      · try rw [hx]
        simp
        exact rec_go_ok_kv dec _ events s.retryCount a hx
      · try rw [hx] at h
        simp [hx] at h

theorem te3_refresh_ok_paired (now skew : Nat) (cfg : TokenExchangeConfig)
    (dec : String → Nat) (s : TokenExchangeForGen.State) (events : List TransportEvent)
    (t : String)
    (h : (TokenExchangeForGen.refreshAndGetSecurityToken now skew cfg dec s events).result
          = Except.ok t) :
    (TokenExchangeForGen.refreshAndGetSecurityToken
        now skew cfg dec s events).state.adapter.keyVersion
      = (TokenExchangeForGen.refreshAndGetSecurityToken
        now skew cfg dec s events).state.keyVersion := by
  simp only [TokenExchangeForGen.refreshAndGetSecurityToken,
    TokenExchangeForGen.refreshInner, TokenExchangeForGen.getSecurityTokenFromServer] at h ⊢
  rcases hx : (TokenExchangeForGen.go cfg dec (s.keyVersion + 1)
      TokenExchangeForGen.MAX_ATTEMPTS events none).result with a | e
  · try rw [hx]
    simp
    exact te3_go_ok_kv cfg dec _ _ events none a hx
  · try rw [hx] at h
    simp [hx] at h

theorem x509_after_ok_paired (cfg : X509FederationClient.Config) (dec : String → Nat)
    (s : X509FederationClient.State) (events : List TransportEvent) (t : String)
    (h : (X509FederationClient.afterCertRefresh cfg dec s events).result = Except.ok t) :
    (X509FederationClient.afterCertRefresh cfg dec s events).state.adapter.keyVersion
      = (X509FederationClient.afterCertRefresh cfg dec s events).state.keyVersion := by
  simp only [X509FederationClient.afterCertRefresh] at h ⊢
  by_cases hint : cfg.intermediateRefreshFailure
  · simp [hint] at h
  · simp [hint] at h ⊢
    rcases hx : (X509FederationClient.getSecurityTokenFromServer cfg dec s.keyVersion
        events).result with a | e
    · try rw [hx]
      simp
      exact x509_server_ok_kv cfg dec _ events _ hx
    · try rw [hx] at h
      simp [hx] at h

theorem x509_refresh_ok_paired (now skew : Nat) (cfg : X509FederationClient.Config)
    (dec : String → Nat) (s : X509FederationClient.State) (events : List TransportEvent)
    (t : String)
    (h : (X509FederationClient.refreshAndGetSecurityToken now skew cfg dec s events).result
          = Except.ok t) :
    (X509FederationClient.refreshAndGetSecurityToken
        now skew cfg dec s events).state.adapter.keyVersion
      = (X509FederationClient.refreshAndGetSecurityToken
        now skew cfg dec s events).state.keyVersion := by
  simp only [X509FederationClient.refreshAndGetSecurityToken,
    X509FederationClient.refreshInner, Bool.false_and] at h ⊢
  simp only [if_neg (by simp : ¬ (false = true))] at h ⊢
  rcases href : cfg.leafRefresh with _ | r
  case none =>
    rw [href] at h
    exact x509_after_ok_paired cfg dec _ events t h
  case some =>
    rcases r with e | nt
    · rw [href] at h
      simp at h
    · by_cases hc : cfg.purpose = ("DEFAULT") ∧ ¬ cfg.tenancyId = nt
      · rw [href] at h
        simp [hc] at h
      · rw [href] at h
        try rw [href]
        simp only [hc] at h ⊢
        simp at h ⊢
        exact x509_after_ok_paired cfg dec _ events t h

/-- C9 counterexample: the session keys rotate at the start of a refresh cycle
and the cached token is only replaced at its end; a forced refresh that fails
leaves the keys rotated (key version 1) while the cached token issued at key
version 0 is retained, and a subsequent getSecurityToken before its expiry
still returns that old token: a caller-observable state in which the session
key pair has rotated while the previously issued cached token is the one
returned. -/
theorem claim9_counterexample_failed_refresh_rotates_keys :
    (TokenExchangeWhileGen.refreshAndGetSecurityToken 0 0 fixtureCfg fixtureDec
        te2PairedState [respStatus 503, respStatus 503, respStatus 503]).state
      = ⟨⟨("oldtok"), 100, 0⟩, 1⟩ ∧
    (TokenExchangeWhileGen.getSecurityToken 0 0 fixtureCfg fixtureDec
        ⟨⟨("oldtok"), 100, 0⟩, 1⟩ []).result = Except.ok ("oldtok") ∧
    ¬ ((⟨⟨("oldtok"), 100, 0⟩, 1⟩ : TokenExchangeWhileGen.State).adapter.keyVersion
        = (⟨⟨("oldtok"), 100, 0⟩, 1⟩ : TokenExchangeWhileGen.State).keyVersion) := by
  refine ⟨by decide, rfl, by decide⟩

/-- C9 (amended): a successful refresh cycle replaces the cached token and the
session-key version together: in every variant, when refreshAndGetSecurityToken
succeeds, the resulting state's cached adapter was built at exactly the
current session-key version.  A failed (or still in-flight) cycle, however,
leaves the keys rotated while the old token stays cached (see the
counterexample). -/
theorem claim9_amended_success_pairs_token_and_keys :
    (∀ (now skew : Nat) (cfg : TokenExchangeConfig) (dec : String → Nat)
        (s : WorkloadIdentityFederationClient.State) (events : List TransportEvent)
        (t : String),
      (WorkloadIdentityFederationClient.refreshAndGetSecurityToken
          now skew cfg dec s events).result = Except.ok t →
      (WorkloadIdentityFederationClient.refreshAndGetSecurityToken
          now skew cfg dec s events).state.adapter.keyVersion
        = (WorkloadIdentityFederationClient.refreshAndGetSecurityToken
          now skew cfg dec s events).state.keyVersion) ∧
    (∀ (now skew : Nat) (cfg : TokenExchangeConfig) (dec : String → Nat)
        (s : TokenExchangeWhileGen.State) (events : List TransportEvent) (t : String),
      (TokenExchangeWhileGen.refreshAndGetSecurityToken
          now skew cfg dec s events).result = Except.ok t →
      (TokenExchangeWhileGen.refreshAndGetSecurityToken
          now skew cfg dec s events).state.adapter.keyVersion
        = (TokenExchangeWhileGen.refreshAndGetSecurityToken
          now skew cfg dec s events).state.keyVersion) ∧
    (∀ (now skew : Nat) (cfg : TokenExchangeConfig) (dec : String → Nat)
        (s : TokenExchangeRecGen.State) (events : List TransportEvent) (t : String),
      (TokenExchangeRecGen.refreshAndGetSecurityToken
          now skew cfg dec s events).result = Except.ok t →
      (TokenExchangeRecGen.refreshAndGetSecurityToken
          now skew cfg dec s events).state.adapter.keyVersion
        = (TokenExchangeRecGen.refreshAndGetSecurityToken
          now skew cfg dec s events).state.keyVersion) ∧
    (∀ (now skew : Nat) (cfg : TokenExchangeConfig) (dec : String → Nat)
        (s : TokenExchangeForGen.State) (events : List TransportEvent) (t : String),
      (TokenExchangeForGen.refreshAndGetSecurityToken
          now skew cfg dec s events).result = Except.ok t →
      (TokenExchangeForGen.refreshAndGetSecurityToken
          now skew cfg dec s events).state.adapter.keyVersion
        = (TokenExchangeForGen.refreshAndGetSecurityToken
          now skew cfg dec s events).state.keyVersion) ∧
    (∀ (now skew : Nat) (cfg : X509FederationClient.Config) (dec : String → Nat)
        (s : X509FederationClient.State) (events : List TransportEvent) (t : String),
      (X509FederationClient.refreshAndGetSecurityToken
          now skew cfg dec s events).result = Except.ok t →
      (X509FederationClient.refreshAndGetSecurityToken
          now skew cfg dec s events).state.adapter.keyVersion
        = (X509FederationClient.refreshAndGetSecurityToken
          now skew cfg dec s events).state.keyVersion) :=
  ⟨wi_refresh_ok_paired, te2_refresh_ok_paired, rec_refresh_ok_paired,
   te3_refresh_ok_paired, x509_refresh_ok_paired⟩

/-- Witness for C9 (amended): a successful forced refresh leaves the new token
paired with the rotated key version in the part_002 generation. -/
theorem claim9_amended_success_pairs_token_and_keys_witness :
    (TokenExchangeWhileGen.refreshAndGetSecurityToken 0 0 fixtureCfg fixtureDec
        te2PairedState [resp200 ("tok")]).state.adapter.keyVersion
      = (TokenExchangeWhileGen.refreshAndGetSecurityToken 0 0 fixtureCfg fixtureDec
        te2PairedState [resp200 ("tok")]).state.keyVersion :=
  claim9_amended_success_pairs_token_and_keys.2.1 0 0 fixtureCfg fixtureDec
    te2PairedState [resp200 ("tok")] ("tok") rfl

theorem wi_getTokenAsync_attempts (cfg : TokenExchangeConfig) (events : List TransportEvent) :
    (WorkloadIdentityFederationClient.getTokenAsync cfg events).2 ≤ 1 := by
  unfold WorkloadIdentityFederationClient.getTokenAsync
  repeat' split
  all_goals simp

/-- C10: every refresh cycle of the workload-identity variant performs at most
one transport attempt and no inter-attempt delay (no outcome is ever retried),
and every error it throws is a wrapped Error with shouldBeRetried = false that
preserves the caught error in its cause field (the wrapped message appends the
cause's message to the fixed prefix). -/
theorem claim10_wi_single_attempt_tagged (cfg : TokenExchangeConfig) (dec : String → Nat)
    (kv : Nat) (events : List TransportEvent) :
    (WorkloadIdentityFederationClient.getSecurityTokenFromServer cfg dec kv events).attempts
      ≤ 1 ∧
    (WorkloadIdentityFederationClient.getSecurityTokenFromServer cfg dec kv events).delays
      = [] ∧
    (∀ e, (WorkloadIdentityFederationClient.getSecurityTokenFromServer cfg dec kv
          events).result = FetchResult.fail e →
      e.shouldBeRetried = some false ∧
      ∃ m, e.cause = some m ∧ e.message = ("Failed to get security token. ") ++ m) := by
  refine ⟨?_, ?_, ?_⟩
  · unfold WorkloadIdentityFederationClient.getSecurityTokenFromServer
    have h0 := wi_getTokenAsync_attempts cfg events
    repeat' split
    all_goals simp_all
  · unfold WorkloadIdentityFederationClient.getSecurityTokenFromServer
    repeat' split
    all_goals simp
  · intro e h
    exact wi_server_fail_tagged cfg dec kv events e h

/-- Witness for C10 at a concrete failing cycle (a 500 response): one
transport attempt, no delays, and the thrown error is tagged non-retriable
with the cause preserved. -/
theorem claim10_wi_single_attempt_tagged_witness :
    (WorkloadIdentityFederationClient.getSecurityTokenFromServer fixtureCfg fixtureDec 1
        [respStatus 500]).attempts ≤ 1 ∧
    ((WorkloadIdentityFederationClient.wrapFinal
        (AUTH_TOKEN_GENERIC_ERROR ++ (". Response failed with status: ")
          ++ toString 500)).shouldBeRetried = some false ∧
     ∃ m, (WorkloadIdentityFederationClient.wrapFinal
        (AUTH_TOKEN_GENERIC_ERROR ++ (". Response failed with status: ")
          ++ toString 500)).cause = some m ∧
       (WorkloadIdentityFederationClient.wrapFinal
        (AUTH_TOKEN_GENERIC_ERROR ++ (". Response failed with status: ")
          ++ toString 500)).message = ("Failed to get security token. ") ++ m) :=
  ⟨(claim10_wi_single_attempt_tagged fixtureCfg fixtureDec 1 [respStatus 500]).1,
   (claim10_wi_single_attempt_tagged fixtureCfg fixtureDec 1 [respStatus 500]).2.2
     (WorkloadIdentityFederationClient.wrapFinal
       (AUTH_TOKEN_GENERIC_ERROR ++ (". Response failed with status: ") ++ toString 500))
     (by decide)⟩

end OciAuth
